import Mathlib

/-!
# Locomotion control pipeline of the quadruped stack: embedding and properties

The development follows two source trees of the repository:

* `quadruped/src/controller/qr_locomotion_controller.cpp`, whose class
  `qrLocomotionController` lives in the global namespace, and
* `ascend-quadruped-cpp/src/mpc_controller/locomotion_controller.cpp`, whose
  class `qrLocomotionController` lives in `namespace Quadruped`,

together with the swing foot trajectory wrapper
(`ascend-quadruped-cpp/include/mpc_controller/foot_trajectory_generator.h`) and
the pose estimator (`ascend-quadruped-cpp/src/state_estimator/robot_pose_estimator.cpp`).

Conventions of the embedding.

* C++ `float` values are rationals (`ℚ`): every statement is about exact arithmetic.
* Objects are records; a member function is a function from the record (and its
  arguments) to the updated record and its result.
* Calls made on sub-components whose code is outside the modelled files are
  recorded, in program order, as a trace of `Call` values; such a call is taken
  not to write the caller's own members, nor the robot clock and stop flag.
* Where the state of the sub-components matters, they are separate objects: a
  call rewrites the state of its receiver only (`applyCalls`).
* `std::map<int, V>` is an association list read by first match.
* A C++ `int` is a 32-bit two's-complement integer: its values lie in
  `[-2^31, 2^31)` and an increment wraps around (`wrapInt32`).
-/

/-! ## Definitions -/

/-- Three-component float vector (`Vec3<float>`, `Eigen::Vector3f`). -/
abbrev Vec3 := Fin 3 → ℚ

/-- The 3x4 force matrix (`Mat3x4<float>`, `Eigen::Matrix<float, 3, 4>`). -/
abbrev Mat3x4 := Fin 3 → Fin 4 → ℚ

/-- Modelled from the spec: the declaration of `qrMotorCmd` / `MotorCommand` is not among the
sources; the spec gives the five per-joint fields (position, velocity, Kp, Kd, torque), and
`GetFakeAction` builds one from five numbers. -/
structure qrMotorCmd where
  position : ℚ
  velocity : ℚ
  positionGain : ℚ
  velocityGain : ℚ
  torque : ℚ
  deriving DecidableEq, Repr

/-- Modelled from the spec: `qrRobotConfig::numMotor` / `RobotConfig::numMotors` is declared
outside the sources; the robot has 4 legs (`NumLeg`) of 3 motors (`numMotorOfOneLeg`), 12 motors. -/
def numMotor : Nat := 12

/-- A `std::map<int, V>`: key/value pairs, a key being bound to its first pair. -/
abbrev StdMap (V : Type) := List (Int × V)

namespace StdMap

/-- The member `find`: the value bound to `k`, `none` standing for `end()`. -/
def find {V : Type} : StdMap V → Int → Option V
  | [], _ => none
  | (k', v) :: rest, k => if k' = k then some v else find rest k

/-- The member `operator[]`: the value bound to `k`; when `k` is not a key, a
default-constructed value `dflt` is inserted under `k` first. Returns the value and the map. -/
def index {V : Type} (dflt : V) (m : StdMap V) (k : Int) : V × StdMap V :=
  match find m k with
  | some v => (v, m)
  | none => (dflt, (k, dflt) :: m)

end StdMap

/-- The sub-components a locomotion controller drives (both source trees). -/
inductive Component where
  | gaitGenerator
  | groundEstimator
  | velocityEstimator
  | stateEstimator
  | comPlanner
  | posePlanner
  | footholdPlanner
  | swingLegController
  | stanceLegController
  deriving DecidableEq, Repr

/-- The member functions called on sub-components. -/
inductive Method where
  | Reset
  | Update
  deriving DecidableEq, Repr

/-- One call on a sub-component: receiver, member function, and the time argument when the
call passes one (`none` for a call without argument). -/
structure Call where
  target : Component
  method : Method
  arg : Option ℚ
  deriving DecidableEq, Repr

/-- Modelled from the spec: the class `qrRobot` is declared outside the sources. The controller
uses its clock (`GetTimeSinceReset()`) and its stop flag (`IsStop()`, `SetStop(b)`). -/
structure qrRobot where
  timeSinceReset : ℚ
  stop : Bool
  deriving DecidableEq, Repr

namespace qrRobot

/-- The accessor `GetTimeSinceReset()`. -/
def GetTimeSinceReset (r : qrRobot) : ℚ := r.timeSinceReset

/-- The accessor `IsStop()`. -/
def IsStop (r : qrRobot) : Bool := r.stop

/-- The setter `SetStop(b)`. -/
def SetStop (r : qrRobot) (b : Bool) : qrRobot := { r with stop := b }

end qrRobot

/-- One pass of the body of the merge loop in `GetAction` for `joint_id`: the swing entry
when `swingAction.find(joint_id)` succeeds, else `stanceAction[joint_id]`; the pair carries
the command vector being filled and the (local) stance map. -/
def mergeStep (swingAction : StdMap qrMotorCmd) (dflt : qrMotorCmd)
    (st : List qrMotorCmd × StdMap qrMotorCmd) (joint_id : Nat) :
    List qrMotorCmd × StdMap qrMotorCmd :=
  match StdMap.find swingAction (joint_id : Int) with
  | some cmd => (st.1 ++ [cmd], st.2)
  | none =>
    let r := StdMap.index dflt st.2 (joint_id : Int)
    (st.1 ++ [r.1], r.2)

/-- The loop `for (int joint_id = 0; joint_id < numMotor; ++joint_id)` of `GetAction`,
started on the vector `action`. -/
def mergeLoop (swingAction : StdMap qrMotorCmd) (dflt : qrMotorCmd)
    (action : List qrMotorCmd) (stanceAction : StdMap qrMotorCmd) :
    List qrMotorCmd × StdMap qrMotorCmd :=
  (List.range numMotor).foldl (mergeStep swingAction dflt) (action, stanceAction)

/-- The command the merge is said to emit for joint `j`: the swing mapping's entry when `j` is
one of its keys, otherwise what the stance mapping yields for `j`. -/
def mergedCommand (swingAction stanceAction : StdMap qrMotorCmd) (dflt : qrMotorCmd)
    (j : Nat) : qrMotorCmd :=
  match StdMap.find swingAction (j : Int) with
  | some cmd => cmd
  | none => (StdMap.index dflt stanceAction (j : Int)).1

/-- The least value of a C++ `int` (32 bits). -/
def INT_MIN : Int := -2147483648

/-- The greatest value of a C++ `int` (32 bits). -/
def INT_MAX : Int := 2147483647

/-- The `int` an integer result is stored as: the value congruent to it modulo `2^32` that lies
in `[INT_MIN, INT_MAX]` (two's-complement wrap-around). -/
def wrapInt32 (x : Int) : Int := (x + 2147483648) % 4294967296 - 2147483648

/-- The controller of `quadruped/src/controller/qr_locomotion_controller.cpp`: the members the
modelled functions read or write. `swingSemaphore` is an `int` counter: a well-formed
controller holds a value in `[INT_MIN, INT_MAX]`, and `++` on it wraps around. -/
structure qrLocomotionController where
  robot : qrRobot
  resetTime : ℚ
  timeSinceReset : ℚ
  action : List qrMotorCmd
  stop : Bool
  swingSemaphore : Int
  stopTick : ℚ
  deriving DecidableEq, Repr

namespace qrLocomotionController

/-- The function `qrLocomotionController::GetAction()` (lines 143-159). `swingAction` is what
`swingLegController->GetAction()` returned, `stanceResult` what `stanceLegController->GetAction()`
returned, `dflt` the default-constructed `qrMotorCmd`. The member `action` is cleared, filled,
and a copy of it is returned with `qpSol`. -/
def GetAction (c : qrLocomotionController) (swingAction : StdMap qrMotorCmd)
    (stanceResult : StdMap qrMotorCmd × Mat3x4) (dflt : qrMotorCmd) :
    (List qrMotorCmd × Mat3x4) × qrLocomotionController :=
  let c1 := { c with action := [] }
  let stanceAction := stanceResult.1
  let qpSol := stanceResult.2
  let filled := (mergeLoop swingAction dflt c1.action stanceAction).1
  let c2 := { c1 with action := filled }
  ((c2.action, qpSol), c2)

/-- The function `qrLocomotionController::Initialization(path)` (lines 37-75): the
sub-components it creates with `new`, in creation order. -/
def Initialization : List Component :=
  [Component.gaitGenerator, Component.groundEstimator, Component.velocityEstimator,
   Component.comPlanner, Component.footholdPlanner, Component.swingLegController,
   Component.stanceLegController]

/-- The function `qrLocomotionController::Reset()` (lines 77-86): the updated controller and the
calls made on sub-components, in order. Sub-component calls are taken not to write the
controller's own members nor the robot clock and stop flag. -/
def Reset (c : qrLocomotionController) : qrLocomotionController × List Call :=
  let c1 := { c with resetTime := c.robot.GetTimeSinceReset }
  let c2 := { c1 with timeSinceReset := 0 }
  (c2,
   [ { target := Component.gaitGenerator, method := Method.Reset, arg := some c2.timeSinceReset },
     { target := Component.groundEstimator, method := Method.Reset, arg := none },
     { target := Component.comPlanner, method := Method.Reset, arg := some c2.timeSinceReset },
     { target := Component.swingLegController, method := Method.Reset, arg := none },
     { target := Component.stanceLegController, method := Method.Reset,
       arg := some c2.timeSinceReset } ])

/-- The function `qrLocomotionController::Update()` (lines 88-141; the commented-out blocks are
not code): the updated controller and the calls made on sub-components, in order. -/
def Update (c : qrLocomotionController) : qrLocomotionController × List Call :=
  let c1 :=
    if !c.robot.IsStop then
      { c with timeSinceReset := c.robot.GetTimeSinceReset - c.resetTime }
    else c
  (c1,
   [ { target := Component.gaitGenerator, method := Method.Update, arg := some c1.timeSinceReset },
     { target := Component.groundEstimator, method := Method.Update, arg := none },
     { target := Component.swingLegController, method := Method.Update, arg := none },
     { target := Component.stanceLegController, method := Method.Update,
       arg := some (c1.robot.GetTimeSinceReset - c1.timeSinceReset) } ])

/-- The function `qrLocomotionController::ForwardOne()` (lines 173-182); `swingSemaphore++`
is an `int` increment. -/
def ForwardOne (c : qrLocomotionController) : qrLocomotionController :=
  let c1 := { c with robot := c.robot.SetStop false }
  let c2 := { c1 with stop := false }
  let c3 := { c2 with swingSemaphore := wrapInt32 (c2.swingSemaphore + 1) }
  if c3.swingSemaphore = 0 then
    let c4 := { c3 with swingSemaphore := wrapInt32 (c3.swingSemaphore + 1) }
    { c4 with resetTime := c4.resetTime + (c4.robot.GetTimeSinceReset - c4.stopTick) }
  else c3

/-- The driver writes the robot clock between two calls of the controller. -/
def atClock (c : qrLocomotionController) (t : ℚ) : qrLocomotionController :=
  { c with robot := { c.robot with timeSinceReset := t } }

/-- Successive `Update()` calls, the robot clock reading the listed values in turn: the final
controller and the trace of each call. -/
def updatesAt : qrLocomotionController → List ℚ → qrLocomotionController × List (List Call)
  | c, [] => (c, [])
  | c, t :: ts =>
    let r := Update (atClock c t)
    let rest := updatesAt r.1 ts
    (rest.1, r.2 :: rest.2)

end qrLocomotionController

/-- Effect of a trace of calls on the sub-components seen as separate objects: `w comp` is the
state of component `comp`, and a call rewrites the state of its receiver only, by the receiver's
own `reset` or `update` applied to the call's argument. -/
def applyCalls {σ : Type} (reset update : Component → Option ℚ → σ → σ)
    (w : Component → σ) (calls : List Call) : Component → σ :=
  calls.foldl
    (fun w call =>
      Function.update w call.target
        (match call.method with
         | Method.Reset => reset call.target call.arg (w call.target)
         | Method.Update => update call.target call.arg (w call.target)))
    w

/-- The number of calls of `method` that `comp` receives in a trace. -/
def callCount (comp : Component) (method : Method) (calls : List Call) : Nat :=
  (calls.filter (fun call => call.target = comp ∧ call.method = method)).length

namespace Quadruped

/-- Modelled from the spec: the class `Robot` of the ascend tree is declared outside the
sources. The modelled code uses its clock (`GetTimeSinceReset()`), its public `stop` flag, its
base position (`GetBasePosition()`, `state.basePosition`) and roll/pitch/yaw
(`GetBaseRollPitchYaw()`), and, in the pose estimator, `heightInControlFrame`,
`config->bodyHeight`, `config->isSim`, `gazeboBasePosition`, `controlParams["mode"]`,
the base orientation quaternion (`GetBaseOrientation()`) and the foot positions in the base
frame, one column per leg (`state.GetFootPositionsInBaseFrame()`). -/
structure Robot where
  timeSinceReset : ℚ
  stop : Bool
  basePosition : Vec3
  baseRollPitchYaw : Vec3
  heightInControlFrame : ℚ
  bodyHeight : ℚ
  isSim : Bool
  gazeboBasePosition : Vec3
  controlParamsMode : Int
  baseOrientation : Fin 4 → ℚ
  footPositionsInBaseFrame : Matrix (Fin 3) (Fin 4) ℚ
  deriving DecidableEq

namespace Robot

/-- The accessor `GetTimeSinceReset()`. -/
def GetTimeSinceReset (r : Robot) : ℚ := r.timeSinceReset

/-- The accessor `GetBasePosition()`. -/
def GetBasePosition (r : Robot) : Vec3 := r.basePosition

/-- The accessor `GetBaseRollPitchYaw()`. -/
def GetBaseRollPitchYaw (r : Robot) : Vec3 := r.baseRollPitchYaw

/-- The accessor `GetBaseOrientation()`. -/
def GetBaseOrientation (r : Robot) : Fin 4 → ℚ := r.baseOrientation

end Robot

/-- The controller of `ascend-quadruped-cpp/src/mpc_controller/locomotion_controller.cpp`: the
members the modelled functions read or write. -/
structure qrLocomotionController where
  robot : Robot
  resetTime : ℚ
  timeSinceReset : ℚ
  action : List qrMotorCmd
  deriving DecidableEq

namespace qrLocomotionController

/-- The constructor's sub-component arguments (lines 12-22), in parameter order. -/
def constructorComponents : List Component :=
  [Component.gaitGenerator, Component.stateEstimator, Component.groundEstimator,
   Component.comPlanner, Component.posePlanner, Component.swingLegController,
   Component.stanceLegController]

/-- The function `qrLocomotionController::Reset()` (lines 28-39). -/
def Reset (c : qrLocomotionController) : qrLocomotionController × List Call :=
  let c1 := { c with resetTime := c.robot.GetTimeSinceReset }
  let c2 := { c1 with timeSinceReset := 0 }
  (c2,
   [ { target := Component.gaitGenerator, method := Method.Reset, arg := some c2.timeSinceReset },
     { target := Component.stateEstimator, method := Method.Reset, arg := some c2.timeSinceReset },
     { target := Component.groundEstimator, method := Method.Reset, arg := some c2.timeSinceReset },
     { target := Component.comPlanner, method := Method.Reset, arg := some c2.timeSinceReset },
     { target := Component.posePlanner, method := Method.Reset, arg := some c2.timeSinceReset },
     { target := Component.swingLegController, method := Method.Reset,
       arg := some c2.timeSinceReset },
     { target := Component.stanceLegController, method := Method.Reset,
       arg := some c2.timeSinceReset } ])

/-- The function `qrLocomotionController::Update()` (lines 41-53). -/
def Update (c : qrLocomotionController) : qrLocomotionController × List Call :=
  let c1 :=
    if !c.robot.stop then
      { c with timeSinceReset := c.robot.GetTimeSinceReset - c.resetTime }
    else c
  (c1,
   [ { target := Component.gaitGenerator, method := Method.Update, arg := some c1.timeSinceReset },
     { target := Component.groundEstimator, method := Method.Update,
       arg := some c1.timeSinceReset },
     { target := Component.stateEstimator, method := Method.Update, arg := some c1.timeSinceReset },
     { target := Component.swingLegController, method := Method.Update,
       arg := some c1.timeSinceReset },
     { target := Component.stanceLegController, method := Method.Update,
       arg := some (c1.robot.GetTimeSinceReset - c1.resetTime) } ])

/-- The function `qrLocomotionController::GetAction()` (lines 55-72). The member `action` is
cleared; the commands are pushed on a local vector of the same name, which is returned. -/
def GetAction (c : qrLocomotionController) (swingAction : StdMap qrMotorCmd)
    (stanceResult : StdMap qrMotorCmd × Mat3x4) (dflt : qrMotorCmd) :
    (List qrMotorCmd × Mat3x4) × qrLocomotionController :=
  let c1 := { c with action := [] }
  let stanceAction := stanceResult.1
  let qpSol := stanceResult.2
  let action : List qrMotorCmd := []
  let filled := (mergeLoop swingAction dflt action stanceAction).1
  ((filled, qpSol), c1)

/-- The driver writes the robot clock between two calls of the controller. -/
def atClock (c : qrLocomotionController) (t : ℚ) : qrLocomotionController :=
  { c with robot := { c.robot with timeSinceReset := t } }

/-- Successive `Update()` calls, the robot clock reading the listed values in turn: the final
controller and the trace of each call. -/
def updatesAt : qrLocomotionController → List ℚ → qrLocomotionController × List (List Call)
  | c, [] => (c, [])
  | c, t :: ts =>
    let r := Update (atClock c t)
    let rest := updatesAt r.1 ts
    (rest.1, r.2 :: rest.2)

end qrLocomotionController

/-- The struct `qrStepParameters` of `foot_trajectory_generator.h`. -/
structure qrStepParameters where
  duration : ℚ
  height : ℚ
  penetration : ℚ
  deriving DecidableEq, Repr

/-- The struct `qrSplineInfo` of `foot_trajectory_generator.h`. -/
structure qrSplineInfo where
  degree : Int
  splineType : String
  controlPoints : List Vec3
  knots : List ℚ

/-- The class `qrSwingFootTrajectory` of `foot_trajectory_generator.h`. `G` is the state of the
pattern generator `footTarjGen` points at; its virtual member functions, defined outside the
sources, are passed to the functions that call them. -/
structure qrSwingFootTrajectory (G : Type) where
  mid : ℚ
  startPos : Vec3
  endPos : Vec3
  stepParams : qrStepParameters
  footTarjGen : G
  splineInfo : qrSplineInfo
  datax : List ℚ
  datay1 : List ℚ
  datay2 : List ℚ
  datay3 : List ℚ

namespace qrSwingFootTrajectory

/-- The overload `ResetFootTrajectory(duration, initialPos, targetPos)` (lines 174-179).
`SetParameters initial_time initial_pos target_pos params` is the generator's virtual
`SetParameters`, acting on the generator state. -/
def ResetFootTrajectory {G : Type}
    (SetParameters : ℚ → Vec3 → Vec3 → qrStepParameters → G → G)
    (s : qrSwingFootTrajectory G) (duration : ℚ) (initialPos targetPos : Vec3) :
    qrSwingFootTrajectory G :=
  let s1 := { s with stepParams := { s.stepParams with duration := duration } }
  { s1 with footTarjGen := SetParameters 0 initialPos targetPos s1.stepParams s1.footTarjGen }

end qrSwingFootTrajectory

/-- The class `RobotPoseEstimator` of `robot_pose_estimator.cpp`: the members the modelled
functions read or write. `estimatedPose` holds position (0..2) and roll/pitch/yaw (3..5). -/
structure RobotPoseEstimator where
  robot : Robot
  lastTimestamp : ℚ
  estimatedPose : Fin 6 → ℚ
  deriving DecidableEq

namespace RobotPoseEstimator

/-- The function `RobotPoseEstimator::Reset(currentTime)` (lines 24-28); the comma initialiser
`estimatedPose << p, rpy` stores the base position followed by roll/pitch/yaw. -/
def Reset (e : RobotPoseEstimator) (currentTime : ℚ) : RobotPoseEstimator :=
  let _unused := currentTime
  let e1 := { e with lastTimestamp := 0 }
  let p := e1.robot.GetBasePosition
  let rpy := e1.robot.GetBaseRollPitchYaw
  { e1 with estimatedPose := ![p 0, p 1, p 2, rpy 0, rpy 1, rpy 2] }

end RobotPoseEstimator

end Quadruped

namespace qrLocomotionController

/-- The function `qrLocomotionController::GetFakeAction()` (lines 161-171). The member `action`
is cleared; a local vector, also named `action`, is declared; the loop pushes the command
`{0,0,0,0,0}` on the member (`this->action`); the local vector is returned with `qpSol`. -/
def GetFakeAction (c : qrLocomotionController) :
    (List qrMotorCmd × Mat3x4) × qrLocomotionController :=
  let c1 := { c with action := [] }
  let qpSol : Mat3x4 := fun _ _ => 0
  let action : List qrMotorCmd := []
  let zeroCmd : qrMotorCmd :=
    { position := 0, velocity := 0, positionGain := 0, velocityGain := 0, torque := 0 }
  let filled := (List.range numMotor).foldl (fun acc _ => acc ++ [zeroCmd]) c1.action
  let c2 := { c1 with action := filled }
  ((action, qpSol), c2)

end qrLocomotionController

namespace Quadruped

namespace qrSwingFootTrajectory

/-- The overload `ResetFootTrajectory(duration, currentTime, targetPos)` (lines 181-188), the
mid-air one. `SetParameters` is the generator's virtual `SetParameters`. -/
def ResetFootTrajectoryMidAir {G : Type}
    (SetParameters : ℚ → Vec3 → Vec3 → qrStepParameters → G → G)
    (s : qrSwingFootTrajectory G) (duration : ℚ) (currentTime : ℚ) (targetPos : Vec3) :
    qrSwingFootTrajectory G :=
  let s1 := { s with stepParams := { s.stepParams with duration := duration } }
  { s1 with footTarjGen := SetParameters currentTime s1.startPos targetPos s1.stepParams
                             s1.footTarjGen }

/-- The function `qrSwingFootTrajectory::Update()` (lines 190-194): its body holds a comment
only. -/
def Update {G : Type} (s : qrSwingFootTrajectory G) : qrSwingFootTrajectory G := s

end qrSwingFootTrajectory

end Quadruped

namespace Quadruped

/-- Modelled from the spec: the class `robotics::math::CubicSpline` is declared outside the
sources. The spec describes the generator's interpolants as independent cubic 1-D interpolants
between two points, with zero velocity where the two z half-arcs meet: here the cubic through
the two boundary values with zero velocity at both ends, over `duration` from `initial_time`. -/
structure CubicSpline where
  initial_time : ℚ
  duration : ℚ
  start_p : ℚ
  end_p : ℚ
  deriving DecidableEq, Repr

namespace CubicSpline

/-- Modelled from the spec: the normalised time of `time` within the spline. -/
def phase (sp : CubicSpline) (time : ℚ) : ℚ := (time - sp.initial_time) / sp.duration

/-- Modelled from the spec: position, velocity and acceleration of the cubic interpolant at an
absolute time. -/
def getPoint (sp : CubicSpline) (time : ℚ) : ℚ × ℚ × ℚ :=
  let u := sp.phase time
  (sp.start_p + (sp.end_p - sp.start_p) * (3 * u ^ 2 - 2 * u ^ 3),
   (sp.end_p - sp.start_p) * (6 * u - 6 * u ^ 2) / sp.duration,
   (sp.end_p - sp.start_p) * (6 - 12 * u) / sp.duration ^ 2)

end CubicSpline

/-- The class `qrFootSplinePatternGenerator` of `foot_trajectory_generator.h`: its protected and
private data members. -/
structure qrFootSplinePatternGenerator where
  initial_time_ : ℚ
  duration_ : ℚ
  startPos : Vec3
  endPos : Vec3
  datax : List ℚ
  datay1 : List ℚ
  datay2 : List ℚ
  datay3 : List ℚ
  foot_spliner_x_ : CubicSpline
  foot_spliner_y_ : CubicSpline
  foot_spliner_up_z_ : CubicSpline
  foot_spliner_down_z_ : CubicSpline
  deriving DecidableEq

namespace qrFootSplinePatternGenerator

/-- The virtual function `UpdateSpline(initial_time, duration, initial_pos, target_appex,
target_pos)` of the base generator (lines 87-90): its body holds a comment only. -/
def UpdateSpline (g : qrFootSplinePatternGenerator) (initial_time duration : ℚ)
    (initial_pos : Vec3) (target_appex : ℚ) (target_pos : Vec3) :
    qrFootSplinePatternGenerator :=
  let _unused := (initial_time, duration, initial_pos, target_appex, target_pos)
  g

/-- Modelled from the spec: `SetParameters` is only declared in the sources. Following the
spec (section 4.2) it stores the liftoff position, the touchdown target, the initial time and
the duration, and rebuilds the interpolants for x, for y, and for the two half-arcs of z,
ascending to the apex over the first half of the duration and descending from it over the
second half. The spec does not fix the z-value of the apex: `apexOf` gives it. -/
def SetParameters (apexOf : Vec3 → Vec3 → qrStepParameters → ℚ)
    (initial_time : ℚ) (initial_pos target_pos : Vec3) (params : qrStepParameters)
    (g : qrFootSplinePatternGenerator) : qrFootSplinePatternGenerator :=
  { g with
    initial_time_ := initial_time
    duration_ := params.duration
    startPos := initial_pos
    endPos := target_pos
    foot_spliner_x_ :=
      { initial_time := initial_time, duration := params.duration,
        start_p := initial_pos 0, end_p := target_pos 0 }
    foot_spliner_y_ :=
      { initial_time := initial_time, duration := params.duration,
        start_p := initial_pos 1, end_p := target_pos 1 }
    foot_spliner_up_z_ :=
      { initial_time := initial_time, duration := params.duration / 2,
        start_p := initial_pos 2, end_p := apexOf initial_pos target_pos params }
    foot_spliner_down_z_ :=
      { initial_time := initial_time + params.duration / 2, duration := params.duration / 2,
        start_p := apexOf initial_pos target_pos params, end_p := target_pos 2 } }

/-- Modelled from the spec: `GenerateTrajectory` is only declared in the sources. Following the
spec (section 4.2) it evaluates all interpolants at the given absolute time and returns
position, velocity, acceleration and `ok`, which is false when the time is outside
`[initialTime, initialTime + duration]`. -/
def GenerateTrajectory (g : qrFootSplinePatternGenerator) (time : ℚ) :
    Vec3 × Vec3 × Vec3 × Bool :=
  let px := g.foot_spliner_x_.getPoint time
  let py := g.foot_spliner_y_.getPoint time
  let pz :=
    if time - g.initial_time_ ≤ g.duration_ / 2 then g.foot_spliner_up_z_.getPoint time
    else g.foot_spliner_down_z_.getPoint time
  let ok : Bool := decide (g.initial_time_ ≤ time ∧ time ≤ g.initial_time_ + g.duration_)
  (![px.1, py.1, pz.1], ![px.2.1, py.2.1, pz.2.1], ![px.2.2, py.2.2, pz.2.2], ok)

end qrFootSplinePatternGenerator

end Quadruped

namespace Quadruped

/-- Modelled from the spec: the enumerations `LegState`, `SubLegState` and `LocomotionMode` are
declared outside the sources; these are the enumerators `EstimateRobotHeight` compares with,
their integer values left open. -/
structure EnumValues where
  STANCE : Int
  EARLY_CONTACT : Int
  TRUE_SWING : Int
  WALK_LOCOMOTION : Int
  deriving DecidableEq, Repr

/-- Modelled from the spec: the class `qrGaitGenerator` is declared outside the sources; it
exposes `desiredLegState[4]` and `detectedLegState[4]`. -/
structure qrGaitGenerator where
  desiredLegState : Fin 4 → Int
  detectedLegState : Fin 4 → Int
  deriving DecidableEq

/-- Modelled from the spec: the class `RobotVelocityEstimator` is declared outside the sources;
it yields the estimated linear velocity (`GetEstimatedVelocity()`) and angular velocity
(`GetEstimatedAngularVelocity()`). -/
structure RobotVelocityEstimator where
  estimatedVelocity : Vec3
  estimatedAngularVelocity : Vec3
  deriving DecidableEq

namespace RobotPoseEstimator

/-- The value of `flag` computed for one leg in `EstimateRobotHeight` (lines 74-83), from
`robot->controlParams["mode"]`, the leg's desired state and its detected state. -/
def legFlag (codes : EnumValues) (mode desLegState legState : Int) : Bool :=
  if mode = codes.WALK_LOCOMOTION then
    (desLegState != codes.TRUE_SWING
      || desLegState == codes.STANCE
      || (desLegState == codes.TRUE_SWING && legState == codes.EARLY_CONTACT))
  else
    desLegState == codes.STANCE

/-- The integer row `contacts` filled by the loop of `EstimateRobotHeight` (lines 72-89):
1 for a leg whose `flag` is true, 0 otherwise. -/
def contacts (e : RobotPoseEstimator) (codes : EnumValues) (gaitGenerator : qrGaitGenerator) :
    Fin 4 → Int :=
  fun legId =>
    if legFlag codes e.robot.controlParamsMode (gaitGenerator.desiredLegState legId)
        (gaitGenerator.detectedLegState legId)
    then 1 else 0

/-- The matrix `footPositionsWorldFrame` of `EstimateRobotHeight` (lines 94-97):
`quaternionToRotationMatrix(baseOrientation).transpose() * footPositions`. The helper
`quaternionToRotationMatrix`, defined outside the sources, is a parameter. -/
def footPositionsWorldFrame (e : RobotPoseEstimator)
    (quaternionToRotationMatrix : (Fin 4 → ℚ) → Matrix (Fin 3) (Fin 3) ℚ) :
    Matrix (Fin 3) (Fin 4) ℚ :=
  let baseOrientation := e.robot.GetBaseOrientation
  let rotMat := (quaternionToRotationMatrix baseOrientation).transpose
  let footPositions := e.robot.footPositionsInBaseFrame
  rotMat * footPositions

/-- A float divided by an integer count; `none` stands for a division by zero. -/
def divByCount (a : ℚ) (n : Int) : Option ℚ :=
  if n = 0 then none else some (a / (n : ℚ))

/-- The function `RobotPoseEstimator::EstimateRobotHeight()` (lines 64-105): the returned height
and the estimator (whose robot may have got a new `heightInControlFrame`), or `none` if a
division by zero is reached. `groundOrientationMat` is what
`groundEstimator->GetAlignedDirections()` returned. -/
def EstimateRobotHeight (e : RobotPoseEstimator) (codes : EnumValues)
    (quaternionToRotationMatrix : (Fin 4 → ℚ) → Matrix (Fin 3) (Fin 3) ℚ)
    (gaitGenerator : qrGaitGenerator) (groundOrientationMat : Matrix (Fin 3) (Fin 3) ℚ) :
    Option (ℚ × RobotPoseEstimator) :=
  let contacts := e.contacts codes gaitGenerator
  if (∑ i, contacts i) = 0 then
    some (e.robot.bodyHeight, e)
  else
    let footPositionsWorldFrame := e.footPositionsWorldFrame quaternionToRotationMatrix
    let footPositionsControlFrame := groundOrientationMat.transpose * footPositionsWorldFrame
    let heightsInControlFrame : Fin 4 → ℚ :=
      fun i => -(footPositionsControlFrame 2 i * (contacts i : ℚ))
    match divByCount (∑ i, heightsInControlFrame i) (∑ i, contacts i) with
    | none => none
    | some h =>
      let e1 := { e with robot := { e.robot with heightInControlFrame := h } }
      let usefulHeights : Fin 4 → ℚ :=
        fun i => -(footPositionsWorldFrame 2 i * (contacts i : ℚ))
      match divByCount (∑ i, usefulHeights i) (∑ i, contacts i) with
      | none => none
      | some height => some (height, e1)

/-- The function `RobotPoseEstimator::ComputePose(deltaTime)` (lines 107-135). `cos` and `sin`
are the library functions on the number type; `velocityEstimator` is the object the estimator
points at. The constant `1.1f` is 11/10. -/
def ComputePose (e : RobotPoseEstimator) (cos sin : ℚ → ℚ)
    (velocityEstimator : RobotVelocityEstimator) (deltaTime : ℚ) : RobotPoseEstimator :=
  let estimatedVelocity := velocityEstimator.estimatedVelocity
  let baseRollPitchYawRate := velocityEstimator.estimatedAngularVelocity
  let vX := estimatedVelocity 0
  let vY := estimatedVelocity 1
  let vTheta := baseRollPitchYawRate 2
  let x := e.estimatedPose 0
  let y := e.estimatedPose 1
  let theta := e.estimatedPose 5
  let deltaT := deltaTime
  let deltaX := (vX * cos theta - vY * sin theta) * deltaT
  let deltaY := (vX * sin theta + vY * cos theta) * deltaT
  let deltaTheta := vTheta * deltaT
  let x1 := x + deltaX * (11 / 10)
  let y1 := y + deltaY * (11 / 10)
  let theta1 := theta + deltaTheta
  let pose := Function.update (Function.update (Function.update e.estimatedPose 0 x1) 1 y1)
    5 theta1
  let basePosition := Function.update (Function.update e.robot.basePosition 0 x1) 1 y1
  { e with estimatedPose := pose, robot := { e.robot with basePosition := basePosition } }

end RobotPoseEstimator

end Quadruped

namespace Quadruped

namespace RobotPoseEstimator

/-- The function `RobotPoseEstimator::Update(currentTime)` (lines 43-62): the estimator after
the call, or `none` if `EstimateRobotHeight` reaches a division by zero. The arguments after
`currentTime` are what the objects the estimator points at yield, as in `EstimateRobotHeight`
and `ComputePose`. The constant `0.001f` is 1/1000. -/
def Update (e : RobotPoseEstimator) (currentTime : ℚ) (codes : EnumValues)
    (quaternionToRotationMatrix : (Fin 4 → ℚ) → Matrix (Fin 3) (Fin 3) ℚ)
    (gaitGenerator : qrGaitGenerator) (groundOrientationMat : Matrix (Fin 3) (Fin 3) ℚ)
    (cos sin : ℚ → ℚ) (velocityEstimator : RobotVelocityEstimator) :
    Option RobotPoseEstimator :=
  let _unused := currentTime
  let deltaTime : ℚ := 1 / 1000
  match e.EstimateRobotHeight codes quaternionToRotationMatrix gaitGenerator
      groundOrientationMat with
  | none => none
  | some (height, e1) =>
    let e2 := { e1 with estimatedPose := Function.update e1.estimatedPose 2 height }
    let e3 := { e2 with
      robot := { e2.robot with basePosition := Function.update e2.robot.basePosition 2 height } }
    let e4 := e3.ComputePose cos sin velocityEstimator deltaTime
    if e4.robot.isSim then
      let e5 := { e4 with
        estimatedPose := Function.update e4.estimatedPose 0 (e4.robot.gazeboBasePosition 0) }
      let e6 := { e5 with
        estimatedPose := Function.update e5.estimatedPose 1 (e5.robot.gazeboBasePosition 1) }
      let e7 := { e6 with
        robot := { e6.robot with
          basePosition := Function.update e6.robot.basePosition 0 (e6.estimatedPose 0) } }
      let e8 := { e7 with
        robot := { e7.robot with
          basePosition := Function.update e7.robot.basePosition 1 (e7.estimatedPose 1) } }
      some e8
    else
      some e4

end RobotPoseEstimator

end Quadruped

/-! ### Sample data -/

/-- A command whose position is `x`, the other fields zero. -/
def sampleCmd (x : ℚ) : qrMotorCmd :=
  { position := x, velocity := 0, positionGain := 0, velocityGain := 0, torque := 0 }

/-- A controller of the `quadruped` tree: running, clock at 5, epoch 2, one stale command. -/
def sampleController : qrLocomotionController :=
  { robot := { timeSinceReset := 5, stop := false }, resetTime := 2, timeSinceReset := 1,
    action := [sampleCmd 9], stop := false, swingSemaphore := 3, stopTick := 0 }

/-- A controller of the `quadruped` tree paused at robot time 4: semaphore -1, clock frozen. -/
def pausedController : qrLocomotionController :=
  { robot := { timeSinceReset := 4, stop := true }, resetTime := 1, timeSinceReset := 3,
    action := [], stop := true, swingSemaphore := -1, stopTick := 4 }

/-- A controller of the `quadruped` tree whose semaphore holds the greatest `int`. -/
def saturatedController : qrLocomotionController :=
  { robot := { timeSinceReset := 5, stop := false }, resetTime := 2, timeSinceReset := 3,
    action := [], stop := false, swingSemaphore := 2147483647, stopTick := 0 }

/-- A controller of the ascend tree: running, clock at 5, epoch 2, one stale command. -/
def Quadruped.sampleController : Quadruped.qrLocomotionController :=
  { robot := { timeSinceReset := 5, stop := false, basePosition := ![1, 2, 3],
               baseRollPitchYaw := ![0, 0, 1], heightInControlFrame := 7, bodyHeight := 3 / 10,
               isSim := false, gazeboBasePosition := ![8, 9, 1], controlParamsMode := 0,
               baseOrientation := ![1, 0, 0, 0],
               footPositionsInBaseFrame := !![1, 1, -1, -1; -1, 1, -1, 1; -1 / 4, -1 / 2, -3 / 4, -1] },
    resetTime := 2, timeSinceReset := 1, action := [sampleCmd 9] }

/-- A pose estimator of the ascend tree with a stale timestamp and a stale pose. -/
def Quadruped.sampleEstimator : Quadruped.RobotPoseEstimator :=
  { robot := Quadruped.sampleController.robot, lastTimestamp := 17,
    estimatedPose := fun _ => 4 }

/-- A generator that records the arguments of every `SetParameters` call it receives. -/
def Quadruped.recordSetParameters (initial_time : ℚ) (initial_pos target_pos : Vec3)
    (params : Quadruped.qrStepParameters)
    (log : List (ℚ × Vec3 × Vec3 × Quadruped.qrStepParameters)) :
    List (ℚ × Vec3 × Vec3 × Quadruped.qrStepParameters) :=
  log ++ [(initial_time, initial_pos, target_pos, params)]

/-- A base generator set for a swing from time 0 over duration 1, with splines at rest. -/
def Quadruped.sampleGenerator : Quadruped.qrFootSplinePatternGenerator :=
  { initial_time_ := 0, duration_ := 1, startPos := ![0, 0, 0], endPos := ![1, 0, 0],
    datax := [], datay1 := [], datay2 := [], datay3 := [],
    foot_spliner_x_ := { initial_time := 0, duration := 1, start_p := 0, end_p := 1 },
    foot_spliner_y_ := { initial_time := 0, duration := 1, start_p := 0, end_p := 0 },
    foot_spliner_up_z_ := { initial_time := 0, duration := 1 / 2, start_p := 0, end_p := 1 / 10 },
    foot_spliner_down_z_ :=
      { initial_time := 1 / 2, duration := 1 / 2, start_p := 1 / 10, end_p := 0 } }

/-- An apex rule for the samples: the higher of the two end heights plus the step height. -/
def Quadruped.sampleApex (initial_pos target_pos : Vec3) (params : Quadruped.qrStepParameters) :
    ℚ :=
  max (initial_pos 2) (target_pos 2) + params.height

/-- A generator for the samples, which moves on the straight line from the initial position to
the target: its state is the initial time, the two positions and the duration. -/
def Quadruped.lineSetParameters (initial_time : ℚ) (initial_pos target_pos : Vec3)
    (params : Quadruped.qrStepParameters) (_g : ℚ × Vec3 × Vec3 × ℚ) : ℚ × Vec3 × Vec3 × ℚ :=
  (initial_time, initial_pos, target_pos, params.duration)

/-- The position the straight-line sample generator yields at an absolute time. -/
def Quadruped.linePosition (g : ℚ × Vec3 × Vec3 × ℚ) (time : ℚ) : Vec3 :=
  fun i => g.2.1 i + (time - g.1) / g.2.2.2 * (g.2.2.1 i - g.2.1 i)

/-- A swing trajectory over the straight-line sample generator, whose stored `startPos` is the
liftoff point `(1,0,0)`. -/
def Quadruped.sampleTrajectory : Quadruped.qrSwingFootTrajectory (ℚ × Vec3 × Vec3 × ℚ) :=
  { mid := 0, startPos := ![1, 0, 0], endPos := ![2, 0, 0],
    stepParams := { duration := 1, height := 1 / 10, penetration := 0 },
    footTarjGen := (0, ![0, 0, 0], ![0, 0, 0], 1),
    splineInfo := { degree := 3, splineType := String.mk [], controlPoints := [], knots := [] },
    datax := [], datay1 := [], datay2 := [], datay3 := [] }

/-- Sample values for the enumerators. -/
def Quadruped.sampleCodes : Quadruped.EnumValues :=
  { STANCE := 1, EARLY_CONTACT := 2, TRUE_SWING := 5, WALK_LOCOMOTION := 3 }

/-- A gait state: leg 0 in stance; leg 1 desired in true swing and detected in early contact;
leg 2 desired in true swing and detected in swing; leg 3 desired and detected in swing. -/
def Quadruped.sampleGait : Quadruped.qrGaitGenerator :=
  { desiredLegState := ![1, 5, 5, 0], detectedLegState := ![1, 2, 0, 0] }

/-- The sample pose estimator with the robot in walk mode. -/
def Quadruped.walkEstimator : Quadruped.RobotPoseEstimator :=
  { Quadruped.sampleEstimator with
    robot := { Quadruped.sampleEstimator.robot with controlParamsMode := 3 } }

/-- A velocity estimate at rest. -/
def Quadruped.restVelocity : Quadruped.RobotVelocityEstimator :=
  { estimatedVelocity := ![0, 0, 4], estimatedAngularVelocity := ![2, 3, 0] }

/-- A gait state with every leg desired and detected in swing. -/
def Quadruped.airGait : Quadruped.qrGaitGenerator :=
  { desiredLegState := ![0, 0, 0, 0], detectedLegState := ![0, 0, 0, 0] }

/-- The sample pose estimator with the robot in simulation. -/
def Quadruped.simEstimator : Quadruped.RobotPoseEstimator :=
  { Quadruped.sampleEstimator with
    robot := { Quadruped.sampleEstimator.robot with isSim := true } }

/-- A velocity estimate in motion. -/
def Quadruped.movingVelocity : Quadruped.RobotVelocityEstimator :=
  { estimatedVelocity := ![1, 2, 0], estimatedAngularVelocity := ![0, 0, 3] }

/-! ## Theorems -/


/-! ### std::map and the merge loop -/

theorem StdMap.index_fst {V : Type} (dflt : V) (m : StdMap V) (k : Int) :
    (StdMap.index dflt m k).1 = (StdMap.find m k).getD dflt := by
  unfold StdMap.index
  cases h : StdMap.find m k <;> simp

theorem StdMap.find_index_getD {V : Type} (dflt : V) (m : StdMap V) (k k2 : Int) :
    (StdMap.find (StdMap.index dflt m k).2 k2).getD dflt = (StdMap.find m k2).getD dflt := by
  unfold StdMap.index
  cases h : StdMap.find m k with
  | some v => simp
  | none =>
    by_cases hk : k = k2
    · subst hk
      simp [StdMap.find, h]
    · simp [StdMap.find, hk]

theorem mergedCommand_index (swingAction : StdMap qrMotorCmd) (dflt : qrMotorCmd)
    (m : StdMap qrMotorCmd) (k : Int) (j : Nat) :
    mergedCommand swingAction (StdMap.index dflt m k).2 dflt j
      = mergedCommand swingAction m dflt j := by
  unfold mergedCommand
  cases StdMap.find swingAction (j : Int) with
  | some cmd => rfl
  | none =>
    simp only [StdMap.index_fst]
    exact StdMap.find_index_getD dflt m k j

theorem foldl_mergeStep (swingAction : StdMap qrMotorCmd) (dflt : qrMotorCmd)
    (ids : List Nat) (acc : List qrMotorCmd) (m : StdMap qrMotorCmd) :
    (ids.foldl (mergeStep swingAction dflt) (acc, m)).1
      = acc ++ ids.map (mergedCommand swingAction m dflt) := by
  induction ids generalizing acc m with
  | nil => simp
  | cons j ids ih =>
    rw [List.foldl_cons]
    cases h : StdMap.find swingAction (j : Int) with
    | some cmd =>
      have hs : mergeStep swingAction dflt (acc, m) j = (acc ++ [cmd], m) := by
        simp [mergeStep, h]
      rw [hs, ih]
      simp [mergedCommand, h]
    | none =>
      have hs : mergeStep swingAction dflt (acc, m) j
          = (acc ++ [(StdMap.index dflt m j).1], (StdMap.index dflt m j).2) := by
        simp [mergeStep, h]
      rw [hs, ih]
      have hm : ids.map (mergedCommand swingAction (StdMap.index dflt m j).2 dflt)
          = ids.map (mergedCommand swingAction m dflt) :=
        List.map_congr_left (fun a _ => mergedCommand_index swingAction dflt m j a)
      rw [hm]
      simp [mergedCommand, h]

theorem mergeLoop_fst (swingAction : StdMap qrMotorCmd) (dflt : qrMotorCmd)
    (stanceAction : StdMap qrMotorCmd) :
    (mergeLoop swingAction dflt [] stanceAction).1
      = (List.range numMotor).map (mergedCommand swingAction stanceAction dflt) := by
  unfold mergeLoop
  rw [foldl_mergeStep]
  simp

theorem getAction_fst (c : qrLocomotionController) (swingAction stanceAction : StdMap qrMotorCmd)
    (qpSol : Mat3x4) (dflt : qrMotorCmd) :
    (qrLocomotionController.GetAction c swingAction (stanceAction, qpSol) dflt).1
      = ((List.range numMotor).map (mergedCommand swingAction stanceAction dflt), qpSol) := by
  simp [qrLocomotionController.GetAction, mergeLoop_fst]

theorem ascend_getAction_fst (c : Quadruped.qrLocomotionController)
    (swingAction stanceAction : StdMap qrMotorCmd) (qpSol : Mat3x4) (dflt : qrMotorCmd) :
    (Quadruped.qrLocomotionController.GetAction c swingAction (stanceAction, qpSol) dflt).1
      = ((List.range numMotor).map (mergedCommand swingAction stanceAction dflt), qpSol) := by
  simp [Quadruped.qrLocomotionController.GetAction, mergeLoop_fst]

theorem merged_getElem? (swingAction stanceAction : StdMap qrMotorCmd) (dflt : qrMotorCmd)
    (j : Nat) (hj : j < numMotor) :
    ((List.range numMotor).map (mergedCommand swingAction stanceAction dflt))[j]?
      = some (mergedCommand swingAction stanceAction dflt j) := by
  simp [List.getElem?_map, List.getElem?_range hj]

/-! ### GetAction -/

/-- C1. In both source trees, whatever the swing and stance mappings contain and whatever the
member `action` held before the call, `GetAction` returns exactly `numMotor = 12` commands, the
one at index `j` being the command merged for joint id `j` (so the sequence is the list of the
merged commands of joints 0, 1, ..., 11, each joint once); a second call made on the controller
left by the first one again returns exactly 12 commands. -/
theorem getAction_twelve_entries_in_joint_order
    (c : qrLocomotionController) (ca : Quadruped.qrLocomotionController)
    (swingAction stanceAction swingAction2 stanceAction2 : StdMap qrMotorCmd)
    (qpSol qpSol2 : Mat3x4) (dflt : qrMotorCmd) :
    numMotor = 12 ∧
    (qrLocomotionController.GetAction c swingAction (stanceAction, qpSol) dflt).1.1.length = 12 ∧
    (qrLocomotionController.GetAction c swingAction (stanceAction, qpSol) dflt).1.1
      = [0, 1, 2, 3, 4, 5, 6, 7, 8, 9, 10, 11].map
          (mergedCommand swingAction stanceAction dflt) ∧
    (qrLocomotionController.GetAction
        (qrLocomotionController.GetAction c swingAction (stanceAction, qpSol) dflt).2
        swingAction2 (stanceAction2, qpSol2) dflt).1.1.length = 12 ∧
    (Quadruped.qrLocomotionController.GetAction ca swingAction (stanceAction, qpSol) dflt).1.1.length
      = 12 ∧
    (Quadruped.qrLocomotionController.GetAction ca swingAction (stanceAction, qpSol) dflt).1.1
      = [0, 1, 2, 3, 4, 5, 6, 7, 8, 9, 10, 11].map
          (mergedCommand swingAction stanceAction dflt) ∧
    (Quadruped.qrLocomotionController.GetAction
        (Quadruped.qrLocomotionController.GetAction ca swingAction (stanceAction, qpSol) dflt).2
        swingAction2 (stanceAction2, qpSol2) dflt).1.1.length = 12 := by
  have hr : List.range numMotor = [0, 1, 2, 3, 4, 5, 6, 7, 8, 9, 10, 11] := by decide
  simp only [getAction_fst, ascend_getAction_fst, hr]
  simp [numMotor]

/-- C2. In both source trees, for a joint id `j` in 0..11: when `j` is a key of the swing
mapping, entry `j` of the returned sequence is the swing mapping's command (also when `j` is a
key of the stance mapping too); when it is not, entry `j` is `stanceAction[j]`, which is the
stance mapping's command whenever `j` is one of its keys. The returned force matrix is the
matrix the stance controller returned. -/
theorem getAction_entry_from_swing_else_stance
    (c : qrLocomotionController) (ca : Quadruped.qrLocomotionController)
    (swingAction stanceAction : StdMap qrMotorCmd) (qpSol : Mat3x4) (dflt : qrMotorCmd)
    (j : Nat) (hj : j < 12) :
    (∀ v, StdMap.find swingAction (j : Int) = some v →
      (qrLocomotionController.GetAction c swingAction (stanceAction, qpSol) dflt).1.1[j]? = some v ∧
      (Quadruped.qrLocomotionController.GetAction ca swingAction (stanceAction, qpSol) dflt).1.1[j]?
        = some v) ∧
    (StdMap.find swingAction (j : Int) = none →
      (qrLocomotionController.GetAction c swingAction (stanceAction, qpSol) dflt).1.1[j]?
        = some (StdMap.index dflt stanceAction (j : Int)).1 ∧
      (Quadruped.qrLocomotionController.GetAction ca swingAction (stanceAction, qpSol) dflt).1.1[j]?
        = some (StdMap.index dflt stanceAction (j : Int)).1) ∧
    (StdMap.find swingAction (j : Int) = none →
      ∀ w, StdMap.find stanceAction (j : Int) = some w →
        (qrLocomotionController.GetAction c swingAction (stanceAction, qpSol) dflt).1.1[j]?
          = some w ∧
        (Quadruped.qrLocomotionController.GetAction ca swingAction (stanceAction, qpSol)
          dflt).1.1[j]? = some w) ∧
    (qrLocomotionController.GetAction c swingAction (stanceAction, qpSol) dflt).1.2 = qpSol ∧
    (Quadruped.qrLocomotionController.GetAction ca swingAction (stanceAction, qpSol) dflt).1.2
      = qpSol := by
  have hj2 : j < numMotor := hj
  simp only [getAction_fst, ascend_getAction_fst,
    merged_getElem? swingAction stanceAction dflt j hj2]
  refine ⟨?_, ?_, ?_, trivial, trivial⟩
  · intro v hv
    simp [mergedCommand, hv]
  · intro hn
    simp [mergedCommand, hn]
  · intro hn w hw
    simp [mergedCommand, hn, StdMap.index, hw]

/-- Witness of C2 at joint 1: the swing mapping binds joint 0 only, the stance mapping binds
joint 1, and entry 1 of the result is the stance command in both trees. -/
theorem getAction_entry_from_swing_else_stance_witness :
    (1 : Nat) < 12 ∧
    (qrLocomotionController.GetAction sampleController [(0, sampleCmd 1)]
        ([(1, sampleCmd 2)], fun _ _ => 0) (sampleCmd 7)).1.1[1]? = some (sampleCmd 2) ∧
    (Quadruped.qrLocomotionController.GetAction Quadruped.sampleController [(0, sampleCmd 1)]
        ([(1, sampleCmd 2)], fun _ _ => 0) (sampleCmd 7)).1.1[1]? = some (sampleCmd 2) :=
  ⟨by decide,
   (getAction_entry_from_swing_else_stance sampleController Quadruped.sampleController
      [(0, sampleCmd 1)] [(1, sampleCmd 2)] (fun _ _ => 0) (sampleCmd 7) 1 (by decide)).2.2.1
      (by simp [StdMap.find]) (sampleCmd 2) (by simp [StdMap.find])⟩

/-! ### Update -/

/-- C4. What the code does: in the `quadruped` tree one `Update` calls, once each and in this
order, the updates of the gait generator, the ground estimator, the swing leg controller and the
stance leg controller, and never the update of the velocity estimator it created; in the ascend
tree one `Update` calls, once each and in this order, the updates of the gait generator, the
ground estimator, the state estimator, the swing leg controller and the stance leg controller. -/
theorem update_call_order (c : qrLocomotionController) (ca : Quadruped.qrLocomotionController) :
    (qrLocomotionController.Update c).2.map (fun call => (call.target, call.method))
      = [(Component.gaitGenerator, Method.Update), (Component.groundEstimator, Method.Update),
         (Component.swingLegController, Method.Update),
         (Component.stanceLegController, Method.Update)] ∧
    Component.velocityEstimator ∈ qrLocomotionController.Initialization ∧
    callCount Component.velocityEstimator Method.Update (qrLocomotionController.Update c).2 = 0 ∧
    callCount Component.stateEstimator Method.Update (qrLocomotionController.Update c).2 = 0 ∧
    (Quadruped.qrLocomotionController.Update ca).2.map (fun call => (call.target, call.method))
      = [(Component.gaitGenerator, Method.Update), (Component.groundEstimator, Method.Update),
         (Component.stateEstimator, Method.Update),
         (Component.swingLegController, Method.Update),
         (Component.stanceLegController, Method.Update)] := by
  refine ⟨rfl, by decide, ?_, ?_, rfl⟩ <;>
    simp [callCount, qrLocomotionController.Update]

/-! ### Reset -/

/-- C5. In both source trees, after `Reset` the reset epoch `resetTime` is the robot's current
clock value and `timeSinceReset` is 0; every call `Reset` makes is a sub-component reset, and
each one that takes a time is passed 0: in the `quadruped` tree the calls are, in order, the
resets of the gait generator with 0, the ground estimator (no argument), the COM planner with
0, the swing leg controller (no argument) and the stance leg controller with 0; in the ascend
tree they are the resets of the gait generator, state estimator, ground estimator, COM planner,
pose planner, swing and stance leg controllers, each with 0. Hence an `Update` made while not
stopped at a robot time `t` not before the epoch yields `timeSinceReset = t - resetTime`, which
is not negative, and it yields 0 when the robot clock has not moved since `Reset`. -/
theorem reset_captures_epoch_and_zeroes_clock
    (c : qrLocomotionController) (ca : Quadruped.qrLocomotionController) (t : ℚ) :
    ((qrLocomotionController.Reset c).1.resetTime = c.robot.timeSinceReset ∧
     (qrLocomotionController.Reset c).1.timeSinceReset = 0 ∧
     (∀ call ∈ (qrLocomotionController.Reset c).2,
        call.method = Method.Reset ∧ ∀ u, call.arg = some u → u = 0) ∧
     (c.robot.stop = false → (qrLocomotionController.Reset c).1.resetTime ≤ t →
        (qrLocomotionController.Update
          (qrLocomotionController.atClock (qrLocomotionController.Reset c).1 t)).1.timeSinceReset
          = t - (qrLocomotionController.Reset c).1.resetTime ∧
        0 ≤ (qrLocomotionController.Update
          (qrLocomotionController.atClock (qrLocomotionController.Reset c).1
            t)).1.timeSinceReset) ∧
     (c.robot.stop = false →
        (qrLocomotionController.Update (qrLocomotionController.Reset c).1).1.timeSinceReset
          = 0)) ∧
    ((Quadruped.qrLocomotionController.Reset ca).1.resetTime = ca.robot.timeSinceReset ∧
     (Quadruped.qrLocomotionController.Reset ca).1.timeSinceReset = 0 ∧
     (∀ call ∈ (Quadruped.qrLocomotionController.Reset ca).2,
        call.method = Method.Reset ∧ call.arg = some 0) ∧
     (ca.robot.stop = false → (Quadruped.qrLocomotionController.Reset ca).1.resetTime ≤ t →
        (Quadruped.qrLocomotionController.Update
          (Quadruped.qrLocomotionController.atClock (Quadruped.qrLocomotionController.Reset ca).1
            t)).1.timeSinceReset
          = t - (Quadruped.qrLocomotionController.Reset ca).1.resetTime ∧
        0 ≤ (Quadruped.qrLocomotionController.Update
          (Quadruped.qrLocomotionController.atClock (Quadruped.qrLocomotionController.Reset ca).1
            t)).1.timeSinceReset) ∧
     (ca.robot.stop = false →
        (Quadruped.qrLocomotionController.Update
          (Quadruped.qrLocomotionController.Reset ca).1).1.timeSinceReset = 0)) ∧
    (qrLocomotionController.Reset c).2
      = [ { target := Component.gaitGenerator, method := Method.Reset, arg := some 0 },
          { target := Component.groundEstimator, method := Method.Reset, arg := none },
          { target := Component.comPlanner, method := Method.Reset, arg := some 0 },
          { target := Component.swingLegController, method := Method.Reset, arg := none },
          { target := Component.stanceLegController, method := Method.Reset, arg := some 0 } ] ∧
    (Quadruped.qrLocomotionController.Reset ca).2
      = [ { target := Component.gaitGenerator, method := Method.Reset, arg := some 0 },
          { target := Component.stateEstimator, method := Method.Reset, arg := some 0 },
          { target := Component.groundEstimator, method := Method.Reset, arg := some 0 },
          { target := Component.comPlanner, method := Method.Reset, arg := some 0 },
          { target := Component.posePlanner, method := Method.Reset, arg := some 0 },
          { target := Component.swingLegController, method := Method.Reset, arg := some 0 },
          { target := Component.stanceLegController, method := Method.Reset,
            arg := some 0 } ] := by
  refine ⟨⟨rfl, rfl, ?_, ?_, ?_⟩, ⟨rfl, rfl, ?_, ?_, ?_⟩, rfl, rfl⟩
  · intro call hc
    simp only [qrLocomotionController.Reset, List.mem_cons, List.mem_singleton,
      List.not_mem_nil, or_false] at hc
    rcases hc with rfl | rfl | rfl | rfl | rfl <;> simp
  · intro hs ht
    simp only [qrLocomotionController.Reset, qrRobot.GetTimeSinceReset] at ht
    simp [qrLocomotionController.Update, qrLocomotionController.atClock,
      qrLocomotionController.Reset, qrRobot.IsStop, qrRobot.GetTimeSinceReset, hs, ht]
  · intro hs
    simp [qrLocomotionController.Update, qrLocomotionController.Reset, qrRobot.IsStop,
      qrRobot.GetTimeSinceReset, hs]
  · intro call hc
    simp only [Quadruped.qrLocomotionController.Reset, List.mem_cons, List.mem_singleton,
      List.not_mem_nil, or_false] at hc
    rcases hc with rfl | rfl | rfl | rfl | rfl | rfl | rfl <;> simp
  · intro hs ht
    simp only [Quadruped.qrLocomotionController.Reset,
      Quadruped.Robot.GetTimeSinceReset] at ht
    simp [Quadruped.qrLocomotionController.Update, Quadruped.qrLocomotionController.atClock,
      Quadruped.qrLocomotionController.Reset, Quadruped.Robot.GetTimeSinceReset, hs, ht]
  · intro hs
    simp [Quadruped.qrLocomotionController.Update, Quadruped.qrLocomotionController.Reset,
      Quadruped.Robot.GetTimeSinceReset, hs]

/-- Witness of C5: both sample controllers are reset at clock 5 and updated at clock 8, not
stopped; the elapsed time is then 8 - 5; the reset of the stance leg controller, last call of
`Reset`, is passed 0. -/
theorem reset_captures_epoch_and_zeroes_clock_witness :
    (qrLocomotionController.Update
      (qrLocomotionController.atClock (qrLocomotionController.Reset sampleController).1
        8)).1.timeSinceReset
      = 8 - (qrLocomotionController.Reset sampleController).1.resetTime ∧
    (Quadruped.qrLocomotionController.Update
      (Quadruped.qrLocomotionController.atClock
        (Quadruped.qrLocomotionController.Reset Quadruped.sampleController).1
        8)).1.timeSinceReset
      = 8 - (Quadruped.qrLocomotionController.Reset Quadruped.sampleController).1.resetTime ∧
    (qrLocomotionController.Reset sampleController).2.getLast?
      = some { target := Component.stanceLegController, method := Method.Reset,
               arg := some 0 } ∧
    (Quadruped.qrLocomotionController.Reset Quadruped.sampleController).2.getLast?
      = some { target := Component.stanceLegController, method := Method.Reset,
               arg := some 0 } :=
  ⟨((reset_captures_epoch_and_zeroes_clock sampleController Quadruped.sampleController
      8).1.2.2.2.1 rfl
      (by norm_num [qrLocomotionController.Reset, sampleController,
        qrRobot.GetTimeSinceReset])).1,
   ((reset_captures_epoch_and_zeroes_clock sampleController Quadruped.sampleController
      8).2.1.2.2.2.1 rfl
      (by norm_num [Quadruped.qrLocomotionController.Reset, Quadruped.sampleController,
        Quadruped.Robot.GetTimeSinceReset])).1,
   by rw [(reset_captures_epoch_and_zeroes_clock sampleController Quadruped.sampleController
      8).2.2.1]; rfl,
   by rw [(reset_captures_epoch_and_zeroes_clock sampleController Quadruped.sampleController
      8).2.2.2]; rfl⟩

/-- C6. What the code does: in the `quadruped` tree `Reset` calls the resets of the gait
generator, the ground estimator, the COM planner, the swing leg controller and the stance leg
controller once each, and calls no reset on the velocity estimator nor on the foothold planner,
both created in `Initialization`; in the ascend tree each of the seven sub-components passed to
the constructor receives exactly one reset call. -/
theorem reset_call_counts (c : qrLocomotionController) (ca : Quadruped.qrLocomotionController) :
    qrLocomotionController.Initialization
      = [Component.gaitGenerator, Component.groundEstimator, Component.velocityEstimator,
         Component.comPlanner, Component.footholdPlanner, Component.swingLegController,
         Component.stanceLegController] ∧
    qrLocomotionController.Initialization.map
        (fun comp => callCount comp Method.Reset (qrLocomotionController.Reset c).2)
      = [1, 1, 0, 1, 0, 1, 1] ∧
    (qrLocomotionController.Reset c).2.map (fun call => (call.target, call.method))
      = [(Component.gaitGenerator, Method.Reset), (Component.groundEstimator, Method.Reset),
         (Component.comPlanner, Method.Reset), (Component.swingLegController, Method.Reset),
         (Component.stanceLegController, Method.Reset)] ∧
    Quadruped.qrLocomotionController.constructorComponents.map
        (fun comp => callCount comp Method.Reset (Quadruped.qrLocomotionController.Reset ca).2)
      = [1, 1, 1, 1, 1, 1, 1] := by
  refine ⟨rfl, ?_, rfl, ?_⟩
  · simp [callCount, qrLocomotionController.Reset, qrLocomotionController.Initialization]
  · simp [callCount, Quadruped.qrLocomotionController.Reset,
      Quadruped.qrLocomotionController.constructorComponents]

/-- C7. Reset is idempotent, the robot's clock and state being the same at both calls. For
`qrLocomotionController::Reset` in both source trees: the controller after two calls equals the
controller after one, the second call makes the same sub-component calls with the same
arguments as the first, and, each sub-component reset being idempotent on its own object, the
sub-component states after two calls equal those after one. For `RobotPoseEstimator::Reset`:
for any two `currentTime` arguments the estimator after two calls equals the estimator after
one, and one call gives the same result whatever its argument. -/
theorem reset_idempotent
    (c : qrLocomotionController) (ca : Quadruped.qrLocomotionController)
    (e : Quadruped.RobotPoseEstimator) (t1 t2 : ℚ)
    {σ : Type} (reset update : Component → Option ℚ → σ → σ) (w : Component → σ)
    (hidem : ∀ comp arg s, reset comp arg (reset comp arg s) = reset comp arg s) :
    ((qrLocomotionController.Reset (qrLocomotionController.Reset c).1).1
        = (qrLocomotionController.Reset c).1 ∧
     (qrLocomotionController.Reset (qrLocomotionController.Reset c).1).2
        = (qrLocomotionController.Reset c).2 ∧
     applyCalls reset update (applyCalls reset update w (qrLocomotionController.Reset c).2)
          (qrLocomotionController.Reset (qrLocomotionController.Reset c).1).2
        = applyCalls reset update w (qrLocomotionController.Reset c).2) ∧
    ((Quadruped.qrLocomotionController.Reset (Quadruped.qrLocomotionController.Reset ca).1).1
        = (Quadruped.qrLocomotionController.Reset ca).1 ∧
     (Quadruped.qrLocomotionController.Reset (Quadruped.qrLocomotionController.Reset ca).1).2
        = (Quadruped.qrLocomotionController.Reset ca).2 ∧
     applyCalls reset update
          (applyCalls reset update w (Quadruped.qrLocomotionController.Reset ca).2)
          (Quadruped.qrLocomotionController.Reset
            (Quadruped.qrLocomotionController.Reset ca).1).2
        = applyCalls reset update w (Quadruped.qrLocomotionController.Reset ca).2) ∧
    (Quadruped.RobotPoseEstimator.Reset (Quadruped.RobotPoseEstimator.Reset e t1) t2
        = Quadruped.RobotPoseEstimator.Reset e t1 ∧
     Quadruped.RobotPoseEstimator.Reset e t2 = Quadruped.RobotPoseEstimator.Reset e t1 ∧
     (Quadruped.RobotPoseEstimator.Reset e t1).lastTimestamp = 0 ∧
     (Quadruped.RobotPoseEstimator.Reset e t1).estimatedPose
        = ![e.robot.basePosition 0, e.robot.basePosition 1, e.robot.basePosition 2,
            e.robot.baseRollPitchYaw 0, e.robot.baseRollPitchYaw 1,
            e.robot.baseRollPitchYaw 2]) := by
  refine ⟨⟨rfl, rfl, ?_⟩, ⟨rfl, rfl, ?_⟩, ⟨rfl, rfl, rfl, rfl⟩⟩
  · funext comp
    cases comp <;>
      simp [applyCalls, qrLocomotionController.Reset, Function.update, hidem]
  · funext comp
    cases comp <;>
      simp [applyCalls, Quadruped.qrLocomotionController.Reset, Function.update, hidem]

/-- Witness of C7: sub-component states are numbers, a reset stores its argument (0 when it has
none) and so is idempotent; resetting the sample controllers and the sample estimator twice
gives what resetting them once gives. -/
theorem reset_idempotent_witness :
    (qrLocomotionController.Reset (qrLocomotionController.Reset sampleController).1).1
      = (qrLocomotionController.Reset sampleController).1 ∧
    applyCalls (fun _ arg (_ : ℚ) => arg.getD 0) (fun _ _ s => s + 1)
        (applyCalls (fun _ arg (_ : ℚ) => arg.getD 0) (fun _ _ s => s + 1) (fun _ => 5)
          (qrLocomotionController.Reset sampleController).2)
        (qrLocomotionController.Reset (qrLocomotionController.Reset sampleController).1).2
      = applyCalls (fun _ arg (_ : ℚ) => arg.getD 0) (fun _ _ s => s + 1) (fun _ => 5)
          (qrLocomotionController.Reset sampleController).2 ∧
    Quadruped.RobotPoseEstimator.Reset
        (Quadruped.RobotPoseEstimator.Reset Quadruped.sampleEstimator 3) 8
      = Quadruped.RobotPoseEstimator.Reset Quadruped.sampleEstimator 3 :=
  ⟨(reset_idempotent sampleController Quadruped.sampleController Quadruped.sampleEstimator 3 8
      (fun _ arg (_ : ℚ) => arg.getD 0) (fun _ _ s => s + 1) (fun _ => 5)
      (fun _ _ _ => rfl)).1.1,
   (reset_idempotent sampleController Quadruped.sampleController Quadruped.sampleEstimator 3 8
      (fun _ arg (_ : ℚ) => arg.getD 0) (fun _ _ s => s + 1) (fun _ => 5)
      (fun _ _ _ => rfl)).1.2.2,
   (reset_idempotent sampleController Quadruped.sampleController Quadruped.sampleEstimator 3 8
      (fun _ arg (_ : ℚ) => arg.getD 0) (fun _ _ s => s + 1) (fun _ => 5)
      (fun _ _ _ => rfl)).2.2.1⟩

/-! ### ForwardOne -/

theorem wrapInt32_of_range (x : Int) (hlo : -2147483648 ≤ x) (hhi : x ≤ 2147483647) :
    wrapInt32 x = x := by
  unfold wrapInt32
  omega

theorem wrapInt32_zero : wrapInt32 0 = 0 := by decide

theorem wrapInt32_one : wrapInt32 1 = 1 := by decide

/-- Counterexample to C8: from the prior value `INT_MAX = 2147483647`, which is not -1, the
`int` increment of `ForwardOne` wraps around: `swingSemaphore` becomes -2147483648, not
`2147483647 + 1`. -/
theorem forwardOne_wraps_at_int_max :
    saturatedController.swingSemaphore = INT_MAX ∧
    saturatedController.swingSemaphore ≠ -1 ∧
    (qrLocomotionController.ForwardOne saturatedController).swingSemaphore = INT_MIN ∧
    (qrLocomotionController.ForwardOne saturatedController).swingSemaphore
      ≠ saturatedController.swingSemaphore + 1 := by
  decide

/-- C8, amended. For a controller whose `swingSemaphore` is an `int` value, `ForwardOne` always
clears the stop flag of the robot and of the controller. When `swingSemaphore` was -1 it becomes
1 and `resetTime` grows by exactly `robotTime - stopTick`; for every other prior value `s`
below `INT_MAX` it becomes `s + 1`, and for every prior value other than -1 `resetTime` is
unchanged. In all cases `swingSemaphore` is an `int` value other than 0 afterwards, and nothing
else of the controller changes. -/
theorem forwardOne_steps_semaphore (c : qrLocomotionController)
    (hlo : INT_MIN ≤ c.swingSemaphore) (hhi : c.swingSemaphore ≤ INT_MAX) :
    (qrLocomotionController.ForwardOne c).robot.stop = false ∧
    (qrLocomotionController.ForwardOne c).stop = false ∧
    (c.swingSemaphore = -1 →
      (qrLocomotionController.ForwardOne c).swingSemaphore = 1 ∧
      (qrLocomotionController.ForwardOne c).resetTime
        = c.resetTime + (c.robot.timeSinceReset - c.stopTick)) ∧
    (c.swingSemaphore ≠ -1 → c.swingSemaphore < INT_MAX →
      (qrLocomotionController.ForwardOne c).swingSemaphore = c.swingSemaphore + 1) ∧
    (c.swingSemaphore ≠ -1 →
      (qrLocomotionController.ForwardOne c).resetTime = c.resetTime) ∧
    (qrLocomotionController.ForwardOne c).swingSemaphore ≠ 0 ∧
    (INT_MIN ≤ (qrLocomotionController.ForwardOne c).swingSemaphore ∧
      (qrLocomotionController.ForwardOne c).swingSemaphore ≤ INT_MAX) ∧
    (qrLocomotionController.ForwardOne c).robot.timeSinceReset = c.robot.timeSinceReset ∧
    (qrLocomotionController.ForwardOne c).timeSinceReset = c.timeSinceReset ∧
    (qrLocomotionController.ForwardOne c).stopTick = c.stopTick ∧
    (qrLocomotionController.ForwardOne c).action = c.action := by
  unfold INT_MIN at hlo
  unfold INT_MAX at hhi
  by_cases h : c.swingSemaphore = -1
  · simp [qrLocomotionController.ForwardOne, qrRobot.SetStop, qrRobot.GetTimeSinceReset, h,
      wrapInt32_zero, wrapInt32_one, INT_MIN, INT_MAX]
  · have h0 : wrapInt32 (c.swingSemaphore + 1) ≠ 0 := by
      unfold wrapInt32
      omega
    have hF : qrLocomotionController.ForwardOne c
        = { c with robot := { c.robot with stop := false }, stop := false,
                   swingSemaphore := wrapInt32 (c.swingSemaphore + 1) } := by
      simp [qrLocomotionController.ForwardOne, qrRobot.SetStop, h0]
    rw [hF]
    refine ⟨rfl, rfl, fun h1 => absurd h1 h, ?_, fun _ => rfl, h0, ?_, rfl, rfl, rfl, rfl⟩
    · intro _ hlt
      unfold INT_MAX at hlt
      exact wrapInt32_of_range _ (by omega) (by omega)
    · simp only [INT_MIN, INT_MAX, wrapInt32]
      omega

/-- Witness of C8: from the paused controller (semaphore -1, stop tick 4, clock 4, epoch 1) the
semaphore becomes 1 and the epoch 1 + (4 - 4); from the running one (semaphore 3) it becomes
3 + 1 and the epoch stays 2. -/
theorem forwardOne_steps_semaphore_witness :
    ((qrLocomotionController.ForwardOne pausedController).swingSemaphore = 1 ∧
     (qrLocomotionController.ForwardOne pausedController).resetTime = 1 + (4 - 4)) ∧
    (qrLocomotionController.ForwardOne sampleController).swingSemaphore = 3 + 1 ∧
    (qrLocomotionController.ForwardOne sampleController).resetTime = 2 :=
  ⟨(forwardOne_steps_semaphore pausedController (by decide) (by decide)).2.2.1 rfl,
   (forwardOne_steps_semaphore sampleController (by decide) (by decide)).2.2.2.1
     (by decide) (by decide),
   (forwardOne_steps_semaphore sampleController (by decide) (by decide)).2.2.2.2.1
     (by decide)⟩

/-- C9. Pausing is absorbed by the reset epoch. Let the controller be paused with
`swingSemaphore = -1` and `stopTick = s`. If `ForwardOne` is called when the robot clock reads
`t1` and `Update` when it reads `t2` (any readings, in particular `s ≤ t1 ≤ t2`), then after
that `Update` `timeSinceReset = (s - resetTime) + (t2 - t1)`, `resetTime` being the epoch
before the pause was lifted; so when the frozen clock was `s - resetTime`, the elapsed time
resumes from its frozen value and advances by `t2 - t1` only, leaving out the paused interval
`t1 - s`. -/
theorem pause_absorbed_by_reset_epoch (c : qrLocomotionController) (s t1 t2 : ℚ)
    (hsem : c.swingSemaphore = -1) (htick : c.stopTick = s) :
    (qrLocomotionController.Update
      (qrLocomotionController.atClock
        (qrLocomotionController.ForwardOne (qrLocomotionController.atClock c t1))
        t2)).1.timeSinceReset
      = (s - c.resetTime) + (t2 - t1) ∧
    (c.timeSinceReset = s - c.resetTime →
      (qrLocomotionController.Update
        (qrLocomotionController.atClock
          (qrLocomotionController.ForwardOne (qrLocomotionController.atClock c t1))
          t2)).1.timeSinceReset
        = c.timeSinceReset + (t2 - t1)) ∧
    (qrLocomotionController.Update
      (qrLocomotionController.atClock
        (qrLocomotionController.ForwardOne (qrLocomotionController.atClock c t1))
        t2)).1.timeSinceReset
      = (t2 - c.resetTime) - (t1 - s) := by
  have key : (qrLocomotionController.Update
      (qrLocomotionController.atClock
        (qrLocomotionController.ForwardOne (qrLocomotionController.atClock c t1))
        t2)).1.timeSinceReset = t2 - (c.resetTime + (t1 - c.stopTick)) := by
    simp [qrLocomotionController.Update, qrLocomotionController.atClock,
      qrLocomotionController.ForwardOne, qrRobot.SetStop, qrRobot.IsStop,
      qrRobot.GetTimeSinceReset, hsem, wrapInt32_zero, wrapInt32_one]
  rw [key, htick]
  refine ⟨by ring, ?_, by ring⟩
  intro hf
  rw [hf]
  ring

/-- Witness of C9: paused at robot time 4 with epoch 1 (frozen clock 3), resumed at 10 and
updated at 12, the elapsed time is 3 + 2. -/
theorem pause_absorbed_by_reset_epoch_witness :
    (qrLocomotionController.Update
      (qrLocomotionController.atClock
        (qrLocomotionController.ForwardOne (qrLocomotionController.atClock pausedController 10))
        12)).1.timeSinceReset
      = (4 - pausedController.resetTime) + (12 - 10) :=
  (pause_absorbed_by_reset_epoch pausedController 4 10 12 rfl rfl).1

/-! ### Swing foot trajectory -/

/-- C10. `ResetFootTrajectory(duration, initialPos, targetPos)` starts a fresh swing at local
time 0: whatever the generator, its state afterwards is what its `SetParameters` makes of the
initial time 0, the given `initialPos` and `targetPos`, and step parameters made of the given
duration and the stored height and penetration; a generator that records its calls has
received exactly that one call; afterwards `stepParams.duration` is the given duration, and the
stored height, penetration, start and end positions are unchanged. -/
theorem resetFootTrajectory_fresh_swing {G : Type}
    (SetParameters : ℚ → Vec3 → Vec3 → Quadruped.qrStepParameters → G → G)
    (s : Quadruped.qrSwingFootTrajectory G)
    (r : Quadruped.qrSwingFootTrajectory
      (List (ℚ × Vec3 × Vec3 × Quadruped.qrStepParameters)))
    (duration : ℚ) (initialPos targetPos : Vec3) :
    (Quadruped.qrSwingFootTrajectory.ResetFootTrajectory SetParameters s duration initialPos
        targetPos).footTarjGen
      = SetParameters 0 initialPos targetPos
          { duration := duration, height := s.stepParams.height,
            penetration := s.stepParams.penetration } s.footTarjGen ∧
    (Quadruped.qrSwingFootTrajectory.ResetFootTrajectory Quadruped.recordSetParameters r duration
        initialPos targetPos).footTarjGen
      = r.footTarjGen ++ [(0, initialPos, targetPos,
          { duration := duration, height := r.stepParams.height,
            penetration := r.stepParams.penetration })] ∧
    (Quadruped.qrSwingFootTrajectory.ResetFootTrajectory SetParameters s duration initialPos
        targetPos).stepParams
      = { duration := duration, height := s.stepParams.height,
          penetration := s.stepParams.penetration } ∧
    (Quadruped.qrSwingFootTrajectory.ResetFootTrajectory SetParameters s duration initialPos
        targetPos).stepParams.duration = duration ∧
    (Quadruped.qrSwingFootTrajectory.ResetFootTrajectory SetParameters s duration initialPos
        targetPos).startPos = s.startPos ∧
    (Quadruped.qrSwingFootTrajectory.ResetFootTrajectory SetParameters s duration initialPos
        targetPos).endPos = s.endPos :=
  ⟨rfl, rfl, rfl, rfl, rfl, rfl⟩

/-! ### GetAction on joints bound by neither mapping, GetFakeAction, stance time -/

/-- C14. In both source trees the merge makes no exclusivity check and cannot fail: for a joint
id `j` in 0..11 that is a key neither of the swing mapping nor of the stance mapping,
`GetAction` still returns 12 entries and entry `j` is the default-constructed command that
`operator[]` inserts, whatever the controller held before and whatever the other joints are
bound to. -/
theorem getAction_default_when_in_neither_mapping
    (c : qrLocomotionController) (ca : Quadruped.qrLocomotionController)
    (swingAction stanceAction : StdMap qrMotorCmd) (qpSol : Mat3x4) (dflt : qrMotorCmd)
    (j : Nat) (hj : j < 12)
    (hswing : StdMap.find swingAction (j : Int) = none)
    (hstance : StdMap.find stanceAction (j : Int) = none) :
    (qrLocomotionController.GetAction c swingAction (stanceAction, qpSol) dflt).1.1.length = 12 ∧
    (qrLocomotionController.GetAction c swingAction (stanceAction, qpSol) dflt).1.1[j]?
      = some dflt ∧
    (Quadruped.qrLocomotionController.GetAction ca swingAction (stanceAction, qpSol)
      dflt).1.1.length = 12 ∧
    (Quadruped.qrLocomotionController.GetAction ca swingAction (stanceAction, qpSol)
      dflt).1.1[j]? = some dflt := by
  have hj2 : j < numMotor := hj
  simp only [getAction_fst, ascend_getAction_fst,
    merged_getElem? swingAction stanceAction dflt j hj2]
  simp [mergedCommand, hswing, StdMap.index, hstance, numMotor]

/-- Witness of C14 at joint 2: the swing mapping binds joint 0 only, the stance mapping joint 1
only, and entry 2 is the default-constructed command in both trees. -/
theorem getAction_default_when_in_neither_mapping_witness :
    (qrLocomotionController.GetAction sampleController [(0, sampleCmd 1)]
        ([(1, sampleCmd 2)], fun _ _ => 0) (sampleCmd 7)).1.1[2]? = some (sampleCmd 7) ∧
    (Quadruped.qrLocomotionController.GetAction Quadruped.sampleController [(0, sampleCmd 1)]
        ([(1, sampleCmd 2)], fun _ _ => 0) (sampleCmd 7)).1.1[2]? = some (sampleCmd 7) :=
  ⟨(getAction_default_when_in_neither_mapping sampleController Quadruped.sampleController
      [(0, sampleCmd 1)] [(1, sampleCmd 2)] (fun _ _ => 0) (sampleCmd 7) 2 (by decide)
      (by simp [StdMap.find]) (by simp [StdMap.find])).2.1,
   (getAction_default_when_in_neither_mapping sampleController Quadruped.sampleController
      [(0, sampleCmd 1)] [(1, sampleCmd 2)] (fun _ _ => 0) (sampleCmd 7) 2 (by decide)
      (by simp [StdMap.find]) (by simp [StdMap.find])).2.2.2⟩

/-- C19. What the code does: `GetFakeAction` returns the local vector it never fills, so the
returned command sequence is empty (0 entries, not 12); the twelve all-zero commands are left
in the member `action`; the returned force matrix is zero. -/
theorem getFakeAction_returns_empty_sequence (c : qrLocomotionController) :
    (qrLocomotionController.GetFakeAction c).1.1 = [] ∧
    (qrLocomotionController.GetFakeAction c).1.1.length = 0 ∧
    (qrLocomotionController.GetFakeAction c).2.action
      = List.replicate 12 { position := 0, velocity := 0, positionGain := 0,
                            velocityGain := 0, torque := 0 } ∧
    (qrLocomotionController.GetFakeAction c).1.2 = (fun _ _ => 0) := by
  have hr : List.range numMotor = [0, 1, 2, 3, 4, 5, 6, 7, 8, 9, 10, 11] := by decide
  refine ⟨rfl, rfl, ?_, rfl⟩
  simp [qrLocomotionController.GetFakeAction, hr, List.replicate]

/-- C20. What the code does: in the `quadruped` tree `Update` passes the stance leg controller
`robotTime - timeSinceReset`, which while not stopped is the reset epoch `resetTime` itself and
not the elapsed time (at robot clock 5 and epoch 2 the gait generator receives 3 and the stance
leg controller 2); in the ascend tree `Update` passes `robotTime - resetTime`. -/
theorem update_stance_time_argument
    (c : qrLocomotionController) (ca : Quadruped.qrLocomotionController) :
    (qrLocomotionController.Update c).2.getLast?
      = some { target := Component.stanceLegController, method := Method.Update,
               arg := some (c.robot.timeSinceReset
                            - (qrLocomotionController.Update c).1.timeSinceReset) } ∧
    (qrLocomotionController.Update sampleController).2
      = [ { target := Component.gaitGenerator, method := Method.Update, arg := some 3 },
          { target := Component.groundEstimator, method := Method.Update, arg := none },
          { target := Component.swingLegController, method := Method.Update, arg := none },
          { target := Component.stanceLegController, method := Method.Update,
            arg := some 2 } ] ∧
    sampleController.robot.timeSinceReset - sampleController.resetTime = 3 ∧
    (Quadruped.qrLocomotionController.Update ca).2.getLast?
      = some { target := Component.stanceLegController, method := Method.Update,
               arg := some (ca.robot.timeSinceReset - ca.resetTime) } ∧
    (Quadruped.qrLocomotionController.Update Quadruped.sampleController).2.getLast?
      = some { target := Component.stanceLegController, method := Method.Update,
               arg := some 3 } := by
  refine ⟨?_, ?_, ?_, ?_, ?_⟩
  · by_cases h : c.robot.stop = true <;>
      simp [qrLocomotionController.Update, qrRobot.IsStop, qrRobot.GetTimeSinceReset, h]
  · simp [qrLocomotionController.Update, sampleController, qrRobot.IsStop,
      qrRobot.GetTimeSinceReset]
    norm_num
  · norm_num [sampleController]
  · by_cases h : ca.robot.stop = true <;>
      simp [Quadruped.qrLocomotionController.Update, Quadruped.Robot.GetTimeSinceReset, h]
  · simp [Quadruped.qrLocomotionController.Update, Quadruped.sampleController,
      Quadruped.Robot.GetTimeSinceReset]
    norm_num

/-! ### Swing foot trajectory: the mid-air overload -/

/-- C15. The mid-air overload `ResetFootTrajectory(duration, currentTime, targetPos)` rebuilds
the generator from the stored start position: whatever the generator, its state afterwards is
what `SetParameters` makes of the initial time `currentTime`, the object's `startPos`, the
given `targetPos` and the step parameters with the given duration. Neither overload changes
`startPos`; so after a fresh-cycle reset with any `initialPos`, a generator that records its
calls has received, as second call, the initial position `startPos` the object had before both
calls. -/
theorem resetFootTrajectory_midAir_uses_stored_startPos {G : Type}
    (SetParameters : ℚ → Vec3 → Vec3 → Quadruped.qrStepParameters → G → G)
    (s : Quadruped.qrSwingFootTrajectory G)
    (r : Quadruped.qrSwingFootTrajectory
      (List (ℚ × Vec3 × Vec3 × Quadruped.qrStepParameters)))
    (duration currentTime duration0 : ℚ) (targetPos initialPos0 targetPos0 : Vec3) :
    (Quadruped.qrSwingFootTrajectory.ResetFootTrajectoryMidAir SetParameters s duration
        currentTime targetPos).footTarjGen
      = SetParameters currentTime s.startPos targetPos
          { duration := duration, height := s.stepParams.height,
            penetration := s.stepParams.penetration } s.footTarjGen ∧
    (Quadruped.qrSwingFootTrajectory.ResetFootTrajectoryMidAir SetParameters s duration
        currentTime targetPos).startPos = s.startPos ∧
    (Quadruped.qrSwingFootTrajectory.ResetFootTrajectory SetParameters s duration0 initialPos0
        targetPos0).startPos = s.startPos ∧
    (Quadruped.qrSwingFootTrajectory.ResetFootTrajectoryMidAir Quadruped.recordSetParameters
        (Quadruped.qrSwingFootTrajectory.ResetFootTrajectory Quadruped.recordSetParameters r
          duration0 initialPos0 targetPos0)
        duration currentTime targetPos).footTarjGen
      = r.footTarjGen ++
          [(0, initialPos0, targetPos0,
            { duration := duration0, height := r.stepParams.height,
              penetration := r.stepParams.penetration }),
           (currentTime, r.startPos, targetPos,
            { duration := duration, height := r.stepParams.height,
              penetration := r.stepParams.penetration })] := by
  refine ⟨rfl, rfl, rfl, ?_⟩
  simp [Quadruped.qrSwingFootTrajectory.ResetFootTrajectoryMidAir,
    Quadruped.qrSwingFootTrajectory.ResetFootTrajectory, Quadruped.recordSetParameters]

/-! ### Re-targeting and the pattern generator -/

/-- C11. What the code does, on a generator that returns its initial position at its initial
time (the straight-line sample generator): a swing started with
`ResetFootTrajectory(1, (1,0,0), (2,0,0))` is at `(3/2, 0, 0)` at time 1/2; after the mid-air
`ResetFootTrajectory(1, 1/2, (2,0,1/10))` the position generated at time 1/2 is the stored
`startPos`, here the liftoff point `(1,0,0)`: the position jumps at the splice instant. -/
theorem retarget_jumps_to_stored_startPos :
    (∀ (t : ℚ) (ip tp : Vec3) (params : Quadruped.qrStepParameters) (g : ℚ × Vec3 × Vec3 × ℚ),
      Quadruped.linePosition (Quadruped.lineSetParameters t ip tp params g) t = ip) ∧
    Quadruped.linePosition
        (Quadruped.qrSwingFootTrajectory.ResetFootTrajectory Quadruped.lineSetParameters
          Quadruped.sampleTrajectory 1 ![1, 0, 0] ![2, 0, 0]).footTarjGen (1 / 2)
      = ![3 / 2, 0, 0] ∧
    Quadruped.linePosition
        (Quadruped.qrSwingFootTrajectory.ResetFootTrajectoryMidAir Quadruped.lineSetParameters
          (Quadruped.qrSwingFootTrajectory.ResetFootTrajectory Quadruped.lineSetParameters
            Quadruped.sampleTrajectory 1 ![1, 0, 0] ![2, 0, 0])
          1 (1 / 2) ![2, 0, 1 / 10]).footTarjGen (1 / 2)
      = ![1, 0, 0] ∧
    Quadruped.sampleTrajectory.startPos = ![1, 0, 0] := by
  refine ⟨?_, ?_, ?_, rfl⟩
  · intro t ip tp params g
    funext i
    simp [Quadruped.linePosition, Quadruped.lineSetParameters]
  · funext i
    fin_cases i <;>
      norm_num [Quadruped.linePosition, Quadruped.lineSetParameters,
        Quadruped.qrSwingFootTrajectory.ResetFootTrajectory]
  · funext i
    fin_cases i <;>
      simp [Quadruped.linePosition, Quadruped.lineSetParameters,
        Quadruped.qrSwingFootTrajectory.ResetFootTrajectory,
        Quadruped.qrSwingFootTrajectory.ResetFootTrajectoryMidAir,
        Quadruped.sampleTrajectory]

/-- On the sample generator (initial time 0, duration 1, start at the origin), after
`UpdateSpline(1, 2, (5,5,5), 1/5, (6,5,5))` the stored initial time, duration, start and end
positions are not the ones given. -/
theorem updateSpline_does_not_store_arguments :
    ¬ ((Quadruped.qrFootSplinePatternGenerator.UpdateSpline Quadruped.sampleGenerator 1 2
          ![5, 5, 5] (1 / 5) ![6, 5, 5]).initial_time_ = 1 ∧
       (Quadruped.qrFootSplinePatternGenerator.UpdateSpline Quadruped.sampleGenerator 1 2
          ![5, 5, 5] (1 / 5) ![6, 5, 5]).duration_ = 2 ∧
       (Quadruped.qrFootSplinePatternGenerator.UpdateSpline Quadruped.sampleGenerator 1 2
          ![5, 5, 5] (1 / 5) ![6, 5, 5]).startPos = ![5, 5, 5] ∧
       (Quadruped.qrFootSplinePatternGenerator.UpdateSpline Quadruped.sampleGenerator 1 2
          ![5, 5, 5] (1 / 5) ![6, 5, 5]).endPos = ![6, 5, 5]) := by
  intro h
  have h1 := h.1
  simp [Quadruped.qrFootSplinePatternGenerator.UpdateSpline, Quadruped.sampleGenerator] at h1

/-- C12. What the code does: `UpdateSpline` of the base spline pattern generator has an empty
body, so whatever its arguments the generator after the call is the generator before it, and
nothing given is stored: on the sample generator (initial time 0, duration 1, from the origin
to `(1,0,0)`), after `UpdateSpline(1, 2, (5,5,5), 1/5, (6,5,5))` the stored initial time is
still 0, the duration still 1, the start and end positions still the old ones. Likewise
`qrSwingFootTrajectory::Update`, whose call to `UpdateSpline` is commented out, leaves the
trajectory state as it was. -/
theorem updateSpline_and_update_change_nothing {G : Type}
    (g : Quadruped.qrFootSplinePatternGenerator) (initial_time duration : ℚ)
    (initial_pos : Vec3) (target_appex : ℚ) (target_pos : Vec3)
    (s : Quadruped.qrSwingFootTrajectory G) :
    Quadruped.qrFootSplinePatternGenerator.UpdateSpline g initial_time duration initial_pos
        target_appex target_pos = g ∧
    Quadruped.qrSwingFootTrajectory.Update s = s ∧
    (Quadruped.qrFootSplinePatternGenerator.UpdateSpline Quadruped.sampleGenerator 1 2
        ![5, 5, 5] (1 / 5) ![6, 5, 5]).initial_time_ = 0 ∧
    (Quadruped.qrFootSplinePatternGenerator.UpdateSpline Quadruped.sampleGenerator 1 2
        ![5, 5, 5] (1 / 5) ![6, 5, 5]).duration_ = 1 ∧
    (Quadruped.qrFootSplinePatternGenerator.UpdateSpline Quadruped.sampleGenerator 1 2
        ![5, 5, 5] (1 / 5) ![6, 5, 5]).startPos = ![0, 0, 0] ∧
    (Quadruped.qrFootSplinePatternGenerator.UpdateSpline Quadruped.sampleGenerator 1 2
        ![5, 5, 5] (1 / 5) ![6, 5, 5]).endPos = ![1, 0, 0] ∧
    (Quadruped.qrFootSplinePatternGenerator.UpdateSpline Quadruped.sampleGenerator 1 2
        ![5, 5, 5] (1 / 5) ![6, 5, 5]).initial_time_ ≠ 1 :=
  ⟨rfl, rfl, rfl, rfl, rfl, rfl, by
    simp [Quadruped.qrFootSplinePatternGenerator.UpdateSpline, Quadruped.sampleGenerator]⟩

theorem cubicSpline_getPoint_start (sp : Quadruped.CubicSpline) :
    sp.getPoint sp.initial_time = (sp.start_p, 0, (sp.end_p - sp.start_p) * 6 / sp.duration ^ 2) := by
  simp [Quadruped.CubicSpline.getPoint, Quadruped.CubicSpline.phase]

theorem cubicSpline_getPoint_end (sp : Quadruped.CubicSpline) (h : sp.duration ≠ 0) :
    sp.getPoint (sp.initial_time + sp.duration)
      = (sp.end_p, 0, (sp.end_p - sp.start_p) * (6 - 12) / sp.duration ^ 2) := by
  have hu : sp.phase (sp.initial_time + sp.duration) = 1 := by
    simp [Quadruped.CubicSpline.phase, h]
  simp only [Quadruped.CubicSpline.getPoint, hu]
  norm_num

/-- C13. Against the generator modelled from the spec, for every initial time, positions, apex
value and step parameters with positive duration: after `SetParameters`, `GenerateTrajectory`
at the initial time returns the initial position with `ok`, at initial time plus duration it
returns the target position with `ok`, at the apex timestamp (half the duration) the z-position
is the apex value and the z-velocity is 0, and for every time before the initial time or after
initial time plus duration `ok` is false. -/
theorem generateTrajectory_endpoints_apex_and_window
    (apexOf : Vec3 → Vec3 → Quadruped.qrStepParameters → ℚ)
    (initial_time : ℚ) (initial_pos target_pos : Vec3) (params : Quadruped.qrStepParameters)
    (g : Quadruped.qrFootSplinePatternGenerator) (hd : 0 < params.duration) :
    (Quadruped.qrFootSplinePatternGenerator.GenerateTrajectory
        (Quadruped.qrFootSplinePatternGenerator.SetParameters apexOf initial_time initial_pos
          target_pos params g) initial_time).1 = initial_pos ∧
    (Quadruped.qrFootSplinePatternGenerator.GenerateTrajectory
        (Quadruped.qrFootSplinePatternGenerator.SetParameters apexOf initial_time initial_pos
          target_pos params g) initial_time).2.2.2 = true ∧
    (Quadruped.qrFootSplinePatternGenerator.GenerateTrajectory
        (Quadruped.qrFootSplinePatternGenerator.SetParameters apexOf initial_time initial_pos
          target_pos params g) (initial_time + params.duration)).1 = target_pos ∧
    (Quadruped.qrFootSplinePatternGenerator.GenerateTrajectory
        (Quadruped.qrFootSplinePatternGenerator.SetParameters apexOf initial_time initial_pos
          target_pos params g) (initial_time + params.duration)).2.2.2 = true ∧
    (Quadruped.qrFootSplinePatternGenerator.GenerateTrajectory
        (Quadruped.qrFootSplinePatternGenerator.SetParameters apexOf initial_time initial_pos
          target_pos params g) (initial_time + params.duration / 2)).1 2
      = apexOf initial_pos target_pos params ∧
    (Quadruped.qrFootSplinePatternGenerator.GenerateTrajectory
        (Quadruped.qrFootSplinePatternGenerator.SetParameters apexOf initial_time initial_pos
          target_pos params g) (initial_time + params.duration / 2)).2.1 2 = 0 ∧
    (∀ time, time < initial_time ∨ initial_time + params.duration < time →
      (Quadruped.qrFootSplinePatternGenerator.GenerateTrajectory
        (Quadruped.qrFootSplinePatternGenerator.SetParameters apexOf initial_time initial_pos
          target_pos params g) time).2.2.2 = false) := by
  have hd0 : params.duration ≠ 0 := ne_of_gt hd
  have hd2 : params.duration / 2 ≠ 0 := by positivity
  have hhalf : params.duration / 2 < params.duration := by linarith
  have hx := cubicSpline_getPoint_start
    { initial_time := initial_time, duration := params.duration,
      start_p := initial_pos 0, end_p := target_pos 0 }
  have hy := cubicSpline_getPoint_start
    { initial_time := initial_time, duration := params.duration,
      start_p := initial_pos 1, end_p := target_pos 1 }
  have hz := cubicSpline_getPoint_start
    { initial_time := initial_time, duration := params.duration / 2,
      start_p := initial_pos 2, end_p := apexOf initial_pos target_pos params }
  have hxe := cubicSpline_getPoint_end
    { initial_time := initial_time, duration := params.duration,
      start_p := initial_pos 0, end_p := target_pos 0 } hd0
  have hye := cubicSpline_getPoint_end
    { initial_time := initial_time, duration := params.duration,
      start_p := initial_pos 1, end_p := target_pos 1 } hd0
  have hze := cubicSpline_getPoint_end
    { initial_time := initial_time + params.duration / 2, duration := params.duration / 2,
      start_p := apexOf initial_pos target_pos params, end_p := target_pos 2 } hd2
  have hza := cubicSpline_getPoint_end
    { initial_time := initial_time, duration := params.duration / 2,
      start_p := initial_pos 2, end_p := apexOf initial_pos target_pos params } hd2
  have hsum : initial_time + params.duration / 2 + params.duration / 2
      = initial_time + params.duration := by ring
  simp only [hsum] at hze
  refine ⟨?_, ?_, ?_, ?_, ?_, ?_, ?_⟩
  · funext i
    have hle : initial_time - initial_time ≤ params.duration / 2 := by
      simp only [sub_self]; positivity
    simp only [Quadruped.qrFootSplinePatternGenerator.GenerateTrajectory,
      Quadruped.qrFootSplinePatternGenerator.SetParameters, hx, hy, hz, hle, if_true]
    fin_cases i <;> rfl
  · simp [Quadruped.qrFootSplinePatternGenerator.GenerateTrajectory,
      Quadruped.qrFootSplinePatternGenerator.SetParameters, le_of_lt hd]
  · funext i
    have hnle : ¬ (initial_time + params.duration - initial_time ≤ params.duration / 2) := by
      simp only [add_sub_cancel_left, not_le]; exact hhalf
    simp only [Quadruped.qrFootSplinePatternGenerator.GenerateTrajectory,
      Quadruped.qrFootSplinePatternGenerator.SetParameters, hxe, hye, hze, hnle, if_false]
    fin_cases i <;> rfl
  · simp [Quadruped.qrFootSplinePatternGenerator.GenerateTrajectory,
      Quadruped.qrFootSplinePatternGenerator.SetParameters, le_of_lt hd]
  · have hle : initial_time + params.duration / 2 - initial_time ≤ params.duration / 2 := by
      simp
    simp only [Quadruped.qrFootSplinePatternGenerator.GenerateTrajectory,
      Quadruped.qrFootSplinePatternGenerator.SetParameters, hza, hle, if_true]
    rfl
  · have hle : initial_time + params.duration / 2 - initial_time ≤ params.duration / 2 := by
      simp
    simp only [Quadruped.qrFootSplinePatternGenerator.GenerateTrajectory,
      Quadruped.qrFootSplinePatternGenerator.SetParameters, hza, hle, if_true]
    rfl
  · intro time ht
    simp only [Quadruped.qrFootSplinePatternGenerator.GenerateTrajectory,
      Quadruped.qrFootSplinePatternGenerator.SetParameters, decide_eq_false_iff_not, not_and,
      not_le]
    intro h1
    rcases ht with ht | ht
    · exact absurd h1 (not_le.mpr ht)
    · exact ht

/-- Witness of C13: the sample generator set for a swing from time 2 over duration 1, from
`(1,0,0)` to `(2,0,0)`, returns the initial position at time 2 and the target at time 3. -/
theorem generateTrajectory_endpoints_apex_and_window_witness :
    (Quadruped.qrFootSplinePatternGenerator.GenerateTrajectory
        (Quadruped.qrFootSplinePatternGenerator.SetParameters Quadruped.sampleApex 2 ![1, 0, 0]
          ![2, 0, 0] { duration := 1, height := 1 / 10, penetration := 0 }
          Quadruped.sampleGenerator) 2).1 = ![1, 0, 0] ∧
    (Quadruped.qrFootSplinePatternGenerator.GenerateTrajectory
        (Quadruped.qrFootSplinePatternGenerator.SetParameters Quadruped.sampleApex 2 ![1, 0, 0]
          ![2, 0, 0] { duration := 1, height := 1 / 10, penetration := 0 }
          Quadruped.sampleGenerator) (2 + 1)).1 = ![2, 0, 0] :=
  ⟨(generateTrajectory_endpoints_apex_and_window Quadruped.sampleApex 2 ![1, 0, 0] ![2, 0, 0]
      { duration := 1, height := 1 / 10, penetration := 0 } Quadruped.sampleGenerator
      (by norm_num)).1,
   (generateTrajectory_endpoints_apex_and_window Quadruped.sampleApex 2 ![1, 0, 0] ![2, 0, 0]
      { duration := 1, height := 1 / 10, penetration := 0 } Quadruped.sampleGenerator
      (by norm_num)).2.2.1⟩

/-! ### Pose estimator -/

/-- C16. `ComputePose(dt)` integrates odometry with the 1.1 factor on the displacement only:
with `theta` the yaw before the call, `x' = x + 1.1*(vX*cos theta - vY*sin theta)*dt`,
`y' = y + 1.1*(vX*sin theta + vY*cos theta)*dt`, `theta' = theta + vTheta*dt`; components 2, 3
and 4 of `estimatedPose` are unchanged; the robot's base position x and y are set to `x'` and
`y'` (its z is unchanged); with zero estimated linear velocity (x and y) and zero yaw rate the
pose is unchanged. -/
theorem computePose_odometry (e : Quadruped.RobotPoseEstimator) (cos sin : ℚ → ℚ)
    (v : Quadruped.RobotVelocityEstimator) (dt : ℚ) :
    (Quadruped.RobotPoseEstimator.ComputePose e cos sin v dt).estimatedPose 0
      = e.estimatedPose 0
        + 11 / 10 * (v.estimatedVelocity 0 * cos (e.estimatedPose 5)
                    - v.estimatedVelocity 1 * sin (e.estimatedPose 5)) * dt ∧
    (Quadruped.RobotPoseEstimator.ComputePose e cos sin v dt).estimatedPose 1
      = e.estimatedPose 1
        + 11 / 10 * (v.estimatedVelocity 0 * sin (e.estimatedPose 5)
                    + v.estimatedVelocity 1 * cos (e.estimatedPose 5)) * dt ∧
    (Quadruped.RobotPoseEstimator.ComputePose e cos sin v dt).estimatedPose 5
      = e.estimatedPose 5 + v.estimatedAngularVelocity 2 * dt ∧
    (Quadruped.RobotPoseEstimator.ComputePose e cos sin v dt).estimatedPose 2
      = e.estimatedPose 2 ∧
    (Quadruped.RobotPoseEstimator.ComputePose e cos sin v dt).estimatedPose 3
      = e.estimatedPose 3 ∧
    (Quadruped.RobotPoseEstimator.ComputePose e cos sin v dt).estimatedPose 4
      = e.estimatedPose 4 ∧
    (Quadruped.RobotPoseEstimator.ComputePose e cos sin v dt).robot.basePosition 0
      = (Quadruped.RobotPoseEstimator.ComputePose e cos sin v dt).estimatedPose 0 ∧
    (Quadruped.RobotPoseEstimator.ComputePose e cos sin v dt).robot.basePosition 1
      = (Quadruped.RobotPoseEstimator.ComputePose e cos sin v dt).estimatedPose 1 ∧
    (Quadruped.RobotPoseEstimator.ComputePose e cos sin v dt).robot.basePosition 2
      = e.robot.basePosition 2 ∧
    (v.estimatedVelocity 0 = 0 → v.estimatedVelocity 1 = 0 → v.estimatedAngularVelocity 2 = 0 →
      (Quadruped.RobotPoseEstimator.ComputePose e cos sin v dt).estimatedPose
        = e.estimatedPose) := by
  refine ⟨?_, ?_, ?_, ?_, ?_, ?_, ?_, ?_, ?_, ?_⟩
  · simp [Quadruped.RobotPoseEstimator.ComputePose, Function.update]
    ring
  · simp [Quadruped.RobotPoseEstimator.ComputePose, Function.update]
    ring
  · simp [Quadruped.RobotPoseEstimator.ComputePose, Function.update]
  · simp [Quadruped.RobotPoseEstimator.ComputePose, Function.update]
  · simp [Quadruped.RobotPoseEstimator.ComputePose, Function.update]
  · simp [Quadruped.RobotPoseEstimator.ComputePose, Function.update]
  · simp [Quadruped.RobotPoseEstimator.ComputePose, Function.update]
  · simp [Quadruped.RobotPoseEstimator.ComputePose, Function.update]
  · simp [Quadruped.RobotPoseEstimator.ComputePose, Function.update]
  · intro h0 h1 h2
    funext i
    simp only [Quadruped.RobotPoseEstimator.ComputePose, h0, h1, h2, Function.update]
    fin_cases i <;> simp

/-- Witness of C16: with the velocity estimate at rest (zero x and y velocity, zero yaw rate)
the pose of the sample estimator is unchanged by `ComputePose(1/1000)`. -/
theorem computePose_odometry_witness :
    (Quadruped.RobotPoseEstimator.ComputePose Quadruped.sampleEstimator (fun _ => 1)
        (fun _ => 0) Quadruped.restVelocity (1 / 1000)).estimatedPose
      = Quadruped.sampleEstimator.estimatedPose :=
  (computePose_odometry Quadruped.sampleEstimator (fun _ => 1) (fun _ => 0)
    Quadruped.restVelocity (1 / 1000)).2.2.2.2.2.2.2.2.2 rfl rfl rfl

/-- C17. In `EstimateRobotHeight` a leg's entry of `contacts` is 1 or 0, and, `TRUE_SWING` and
`STANCE` being distinct values: in `WALK_LOCOMOTION` mode it is 1 exactly when the leg's
desired state is not `TRUE_SWING` or its detected state is `EARLY_CONTACT`; in every other mode
it is 1 exactly when the leg's desired state is `STANCE`, whatever its detected state. -/
theorem supporting_leg_rule (e : Quadruped.RobotPoseEstimator) (codes : Quadruped.EnumValues)
    (gaitGenerator gaitGenerator2 : Quadruped.qrGaitGenerator) (legId : Fin 4)
    (hne : codes.TRUE_SWING ≠ codes.STANCE) :
    (e.contacts codes gaitGenerator legId = 1 ∨ e.contacts codes gaitGenerator legId = 0) ∧
    (e.robot.controlParamsMode = codes.WALK_LOCOMOTION →
      (e.contacts codes gaitGenerator legId = 1 ↔
        (gaitGenerator.desiredLegState legId ≠ codes.TRUE_SWING ∨
         gaitGenerator.detectedLegState legId = codes.EARLY_CONTACT))) ∧
    (e.robot.controlParamsMode ≠ codes.WALK_LOCOMOTION →
      (e.contacts codes gaitGenerator legId = 1 ↔
        gaitGenerator.desiredLegState legId = codes.STANCE)) ∧
    (e.robot.controlParamsMode ≠ codes.WALK_LOCOMOTION →
      gaitGenerator2.desiredLegState legId = gaitGenerator.desiredLegState legId →
      e.contacts codes gaitGenerator2 legId = e.contacts codes gaitGenerator legId) := by
  refine ⟨?_, ?_, ?_, ?_⟩
  · unfold Quadruped.RobotPoseEstimator.contacts
    split <;> simp
  · intro hmode
    simp only [Quadruped.RobotPoseEstimator.contacts, Quadruped.RobotPoseEstimator.legFlag,
      hmode, if_true]
    by_cases h1 : gaitGenerator.desiredLegState legId = codes.TRUE_SWING
    · by_cases h3 : gaitGenerator.detectedLegState legId = codes.EARLY_CONTACT <;>
        simp [h1, h3, hne]
    · simp [h1]
  · intro hmode
    simp [Quadruped.RobotPoseEstimator.contacts, Quadruped.RobotPoseEstimator.legFlag, hmode]
  · intro hmode hdes
    simp [Quadruped.RobotPoseEstimator.contacts, Quadruped.RobotPoseEstimator.legFlag, hmode,
      hdes]

/-- Witness of C17: in walk mode leg 1 of the sample gait (desired true swing, detected early
contact) counts as supporting; in another mode it does not, its desired state not being
stance. -/
theorem supporting_leg_rule_witness :
    Quadruped.walkEstimator.contacts Quadruped.sampleCodes Quadruped.sampleGait 1 = 1 ∧
    ¬ Quadruped.sampleEstimator.contacts Quadruped.sampleCodes Quadruped.sampleGait 1 = 1 :=
  ⟨((supporting_leg_rule Quadruped.walkEstimator Quadruped.sampleCodes Quadruped.sampleGait
      Quadruped.sampleGait 1 (by decide)).2.1 rfl).mpr (Or.inr rfl),
   fun h => absurd
     (((supporting_leg_rule Quadruped.sampleEstimator Quadruped.sampleCodes Quadruped.sampleGait
        Quadruped.sampleGait 1 (by decide)).2.2.1 (by decide)).mp h)
     (by decide)⟩

theorem contacts_zero_or_one (e : Quadruped.RobotPoseEstimator) (codes : Quadruped.EnumValues)
    (gaitGenerator : Quadruped.qrGaitGenerator) (i : Fin 4) :
    e.contacts codes gaitGenerator i = 1 ∨ e.contacts codes gaitGenerator i = 0 := by
  unfold Quadruped.RobotPoseEstimator.contacts
  split <;> simp

theorem contacts_sum_eq_card (e : Quadruped.RobotPoseEstimator) (codes : Quadruped.EnumValues)
    (gaitGenerator : Quadruped.qrGaitGenerator) :
    (∑ i, e.contacts codes gaitGenerator i)
      = ((Finset.univ.filter (fun i => e.contacts codes gaitGenerator i = 1)).card : Int) := by
  rw [Finset.card_filter]
  push_cast
  refine Finset.sum_congr rfl (fun i _ => ?_)
  rcases contacts_zero_or_one e codes gaitGenerator i with h | h <;> simp [h]

theorem weighted_sum_eq_sum_supporting (e : Quadruped.RobotPoseEstimator)
    (codes : Quadruped.EnumValues) (gaitGenerator : Quadruped.qrGaitGenerator)
    (z : Fin 4 → ℚ) :
    (∑ i, -(z i * (e.contacts codes gaitGenerator i : ℚ)))
      = ∑ i in Finset.univ.filter (fun i => e.contacts codes gaitGenerator i = 1), -(z i) := by
  rw [Finset.sum_filter]
  refine Finset.sum_congr rfl (fun i _ => ?_)
  rcases contacts_zero_or_one e codes gaitGenerator i with h | h <;> simp [h]

theorem estimateRobotHeight_of_sum_ne_zero (e : Quadruped.RobotPoseEstimator)
    (codes : Quadruped.EnumValues)
    (q2R : (Fin 4 → ℚ) → Matrix (Fin 3) (Fin 3) ℚ)
    (gaitGenerator : Quadruped.qrGaitGenerator) (ground : Matrix (Fin 3) (Fin 3) ℚ)
    (h : (∑ i, e.contacts codes gaitGenerator i) ≠ 0) :
    (e.EstimateRobotHeight codes q2R gaitGenerator ground).map Prod.fst
      = some ((∑ i, -((e.footPositionsWorldFrame q2R) 2 i
                      * (e.contacts codes gaitGenerator i : ℚ)))
              / ((∑ i, e.contacts codes gaitGenerator i : Int) : ℚ)) := by
  simp [Quadruped.RobotPoseEstimator.EstimateRobotHeight,
    Quadruped.RobotPoseEstimator.divByCount, h]

/-- C18. `EstimateRobotHeight` never reaches a division by zero. When no leg is counted as
supporting it returns the configured `bodyHeight` and leaves the estimator and the robot,
`heightInControlFrame` included, as they were. Otherwise it returns the arithmetic mean, over
the supporting legs, of the negated world-frame foot z-coordinate; so the result lies between
any lower and any upper bound of those values (their minimum and maximum in particular). In
both cases the result is the same for any other foot positions that agree on the supporting
legs. -/
theorem estimateRobotHeight_mean_over_supporting_legs
    (e : Quadruped.RobotPoseEstimator) (codes : Quadruped.EnumValues)
    (q2R : (Fin 4 → ℚ) → Matrix (Fin 3) (Fin 3) ℚ)
    (gaitGenerator : Quadruped.qrGaitGenerator) (ground : Matrix (Fin 3) (Fin 3) ℚ)
    (footPositions2 : Matrix (Fin 3) (Fin 4) ℚ) (lo hi : ℚ) :
    (e.EstimateRobotHeight codes q2R gaitGenerator ground).isSome = true ∧
    ((∀ i, e.contacts codes gaitGenerator i ≠ 1) →
      e.EstimateRobotHeight codes q2R gaitGenerator ground = some (e.robot.bodyHeight, e)) ∧
    ((∃ i, e.contacts codes gaitGenerator i = 1) →
      (e.EstimateRobotHeight codes q2R gaitGenerator ground).map Prod.fst
        = some ((∑ i in Finset.univ.filter (fun i => e.contacts codes gaitGenerator i = 1),
                  -((e.footPositionsWorldFrame q2R) 2 i))
                / ((Finset.univ.filter
                    (fun i => e.contacts codes gaitGenerator i = 1)).card : ℚ)) ∧
      0 < (Finset.univ.filter (fun i => e.contacts codes gaitGenerator i = 1)).card ∧
      ((∀ i, e.contacts codes gaitGenerator i = 1 → lo ≤ -((e.footPositionsWorldFrame q2R) 2 i)) →
        ∀ r ∈ (e.EstimateRobotHeight codes q2R gaitGenerator ground).map Prod.fst, lo ≤ r) ∧
      ((∀ i, e.contacts codes gaitGenerator i = 1 → -((e.footPositionsWorldFrame q2R) 2 i) ≤ hi) →
        ∀ r ∈ (e.EstimateRobotHeight codes q2R gaitGenerator ground).map Prod.fst, r ≤ hi)) ∧
    ((∀ i, e.contacts codes gaitGenerator i = 1 →
        ∀ k, footPositions2 k i = e.robot.footPositionsInBaseFrame k i) →
      (Quadruped.RobotPoseEstimator.EstimateRobotHeight
          { e with robot := { e.robot with footPositionsInBaseFrame := footPositions2 } }
          codes q2R gaitGenerator ground).map Prod.fst
        = (e.EstimateRobotHeight codes q2R gaitGenerator ground).map Prod.fst) := by
  have hcard := contacts_sum_eq_card e codes gaitGenerator
  have hzero_iff : (∑ i, e.contacts codes gaitGenerator i) = 0 ↔
      ∀ i, e.contacts codes gaitGenerator i ≠ 1 := by
    rw [hcard]
    constructor
    · intro h i hi
      have h0 : (Finset.univ.filter (fun i => e.contacts codes gaitGenerator i = 1)).card = 0 := by
        exact_mod_cast h
      rw [Finset.card_eq_zero] at h0
      have hmem : i ∈ Finset.univ.filter (fun i => e.contacts codes gaitGenerator i = 1) := by
        simp [hi]
      rw [h0] at hmem
      exact absurd hmem (Finset.not_mem_empty i)
    · intro h
      have h0 : Finset.univ.filter (fun i => e.contacts codes gaitGenerator i = 1) = ∅ := by
        apply Finset.filter_eq_empty_iff.mpr
        intro i _
        exact h i
      rw [h0]
      simp
  refine ⟨?_, ?_, ?_, ?_⟩
  · by_cases h : (∑ i, e.contacts codes gaitGenerator i) = 0
    · simp [Quadruped.RobotPoseEstimator.EstimateRobotHeight, h]
    · have := estimateRobotHeight_of_sum_ne_zero e codes q2R gaitGenerator ground h
      cases hr : e.EstimateRobotHeight codes q2R gaitGenerator ground with
      | none => rw [hr] at this; simp at this
      | some v => rfl
  · intro h
    have h0 := hzero_iff.mpr h
    simp [Quadruped.RobotPoseEstimator.EstimateRobotHeight, h0]
  · intro hex
    have hne : (∑ i, e.contacts codes gaitGenerator i) ≠ 0 := by
      intro h0
      obtain ⟨i, hi⟩ := hex
      exact (hzero_iff.mp h0) i hi
    have hpos : 0 < (Finset.univ.filter
        (fun i => e.contacts codes gaitGenerator i = 1)).card := by
      obtain ⟨i, hi⟩ := hex
      exact Finset.card_pos.mpr ⟨i, by simp [hi]⟩
    have hval := estimateRobotHeight_of_sum_ne_zero e codes q2R gaitGenerator ground hne
    rw [weighted_sum_eq_sum_supporting, hcard] at hval
    have hval2 : (e.EstimateRobotHeight codes q2R gaitGenerator ground).map Prod.fst
        = some ((∑ i in Finset.univ.filter (fun i => e.contacts codes gaitGenerator i = 1),
                  -((e.footPositionsWorldFrame q2R) 2 i))
                / ((Finset.univ.filter
                    (fun i => e.contacts codes gaitGenerator i = 1)).card : ℚ)) := by
      rw [hval]
      simp
    have hposq : (0 : ℚ) < ((Finset.univ.filter
        (fun i => e.contacts codes gaitGenerator i = 1)).card : ℚ) := by
      exact_mod_cast hpos
    refine ⟨hval2, hpos, ?_, ?_⟩
    · intro hlo r hr
      rw [hval2] at hr
      simp only [Option.mem_def, Option.some.injEq] at hr
      rw [← hr, le_div_iff₀ hposq]
      have := Finset.card_nsmul_le_sum
        (Finset.univ.filter (fun i => e.contacts codes gaitGenerator i = 1))
        (fun i => -((e.footPositionsWorldFrame q2R) 2 i)) lo
        (fun i hi => hlo i (by simpa using hi))
      rw [nsmul_eq_mul] at this
      linarith
    · intro hhi r hr
      rw [hval2] at hr
      simp only [Option.mem_def, Option.some.injEq] at hr
      rw [← hr, div_le_iff₀ hposq]
      have := Finset.sum_le_card_nsmul
        (Finset.univ.filter (fun i => e.contacts codes gaitGenerator i = 1))
        (fun i => -((e.footPositionsWorldFrame q2R) 2 i)) hi
        (fun i hi => hhi i (by simpa using hi))
      rw [nsmul_eq_mul] at this
      linarith
  · intro hagree
    have hc : ∀ i, Quadruped.RobotPoseEstimator.contacts
        { e with robot := { e.robot with footPositionsInBaseFrame := footPositions2 } }
        codes gaitGenerator i = e.contacts codes gaitGenerator i := fun i => rfl
    by_cases h : (∑ i, e.contacts codes gaitGenerator i) = 0
    · simp [Quadruped.RobotPoseEstimator.EstimateRobotHeight, h, hc]
    · have h2 : (∑ i, Quadruped.RobotPoseEstimator.contacts
          { e with robot := { e.robot with footPositionsInBaseFrame := footPositions2 } }
          codes gaitGenerator i) ≠ 0 := by
        simpa only [hc] using h
      rw [estimateRobotHeight_of_sum_ne_zero e codes q2R gaitGenerator ground h,
        estimateRobotHeight_of_sum_ne_zero _ codes q2R gaitGenerator ground h2,
        weighted_sum_eq_sum_supporting, weighted_sum_eq_sum_supporting]
      simp only [hc]
      congr 2
      refine Finset.sum_congr rfl (fun i hi => ?_)
      have hi1 : e.contacts codes gaitGenerator i = 1 := by simpa using hi
      simp only [Quadruped.RobotPoseEstimator.footPositionsWorldFrame, Matrix.mul_apply,
        Quadruped.Robot.GetBaseOrientation]
      congr 1
      refine Finset.sum_congr rfl (fun k _ => ?_)
      rw [hagree i hi1 k]

/-- Witness of C18: with every leg in swing and the robot not in walk mode no leg is
supporting and the sample estimator returns the configured body height, unchanged itself; in
walk mode with the sample gait some leg is supporting. -/
theorem estimateRobotHeight_mean_over_supporting_legs_witness :
    Quadruped.sampleEstimator.EstimateRobotHeight Quadruped.sampleCodes (fun _ => 1)
        Quadruped.airGait 1
      = some (Quadruped.sampleEstimator.robot.bodyHeight, Quadruped.sampleEstimator) ∧
    0 < (Finset.univ.filter
          (fun i => Quadruped.walkEstimator.contacts Quadruped.sampleCodes Quadruped.sampleGait i
            = 1)).card :=
  ⟨(estimateRobotHeight_mean_over_supporting_legs Quadruped.sampleEstimator
      Quadruped.sampleCodes (fun _ => 1) Quadruped.airGait 1 0 0 0).2.1 (by decide),
   ((estimateRobotHeight_mean_over_supporting_legs Quadruped.walkEstimator
      Quadruped.sampleCodes (fun _ => 1) Quadruped.sampleGait 1 0 0 0).2.2.1
      ⟨0, by decide⟩).2.1⟩

theorem estimateRobotHeight_sample_value :
    (Quadruped.walkEstimator.EstimateRobotHeight Quadruped.sampleCodes (fun _ => 1)
        Quadruped.sampleGait 1).map Prod.fst = some (7 / 12) := by
  have hc : Quadruped.walkEstimator.contacts Quadruped.sampleCodes Quadruped.sampleGait
      = ![1, 1, 0, 1] := by
    funext i
    fin_cases i <;> decide
  rw [estimateRobotHeight_of_sum_ne_zero _ _ _ _ _ (by rw [hc]; decide), hc]
  simp [Quadruped.RobotPoseEstimator.footPositionsWorldFrame, Fin.sum_univ_four,
    Quadruped.Robot.GetBaseOrientation, Quadruped.walkEstimator, Quadruped.sampleEstimator,
    Quadruped.sampleController]
  norm_num

/-! ### Pose estimator: Update -/

theorem estimateRobotHeight_ne_none (e : Quadruped.RobotPoseEstimator)
    (codes : Quadruped.EnumValues) (q2R : (Fin 4 → ℚ) → Matrix (Fin 3) (Fin 3) ℚ)
    (gaitGenerator : Quadruped.qrGaitGenerator) (ground : Matrix (Fin 3) (Fin 3) ℚ) :
    e.EstimateRobotHeight codes q2R gaitGenerator ground ≠ none := by
  by_cases h : (∑ i, e.contacts codes gaitGenerator i) = 0
  · simp [Quadruped.RobotPoseEstimator.EstimateRobotHeight, h]
  · simp [Quadruped.RobotPoseEstimator.EstimateRobotHeight,
      Quadruped.RobotPoseEstimator.divByCount, h]

theorem estimateRobotHeight_frame (e : Quadruped.RobotPoseEstimator)
    (codes : Quadruped.EnumValues) (q2R : (Fin 4 → ℚ) → Matrix (Fin 3) (Fin 3) ℚ)
    (gaitGenerator : Quadruped.qrGaitGenerator) (ground : Matrix (Fin 3) (Fin 3) ℚ)
    (height : ℚ) (e1 : Quadruped.RobotPoseEstimator)
    (hh : e.EstimateRobotHeight codes q2R gaitGenerator ground = some (height, e1)) :
    e1.estimatedPose = e.estimatedPose ∧
    e1.robot.basePosition = e.robot.basePosition ∧
    e1.robot.isSim = e.robot.isSim ∧
    e1.robot.gazeboBasePosition = e.robot.gazeboBasePosition := by
  by_cases h : (∑ i, e.contacts codes gaitGenerator i) = 0
  · simp only [Quadruped.RobotPoseEstimator.EstimateRobotHeight, h, if_true,
      Option.some.injEq, Prod.mk.injEq] at hh
    obtain ⟨_, rfl⟩ := hh
    exact ⟨rfl, rfl, rfl, rfl⟩
  · simp only [Quadruped.RobotPoseEstimator.EstimateRobotHeight,
      Quadruped.RobotPoseEstimator.divByCount, h, if_false,
      Option.some.injEq, Prod.mk.injEq] at hh
    obtain ⟨_, rfl⟩ := hh
    exact ⟨rfl, rfl, rfl, rfl⟩

/-- C21. `RobotPoseEstimator::Update` always yields an estimator (no division by zero is
reached), in simulation or not and for any `currentTime`, and after it the robot's stored base
position agrees with the estimate in all three coordinates: `basePosition[i] = estimatedPose[i]`
for `i = 0, 1, 2`, component 2 being the value `EstimateRobotHeight` returned. In simulation
mode components 0 and 1 are the simulator's base position, whatever the estimated velocities:
the odometry increment of `ComputePose` has no effect on them. -/
theorem poseEstimator_update_base_position_agrees
    (e : Quadruped.RobotPoseEstimator) (currentTime : ℚ) (codes : Quadruped.EnumValues)
    (q2R : (Fin 4 → ℚ) → Matrix (Fin 3) (Fin 3) ℚ)
    (gaitGenerator : Quadruped.qrGaitGenerator) (ground : Matrix (Fin 3) (Fin 3) ℚ)
    (cos sin : ℚ → ℚ) (v : Quadruped.RobotVelocityEstimator) :
    ∃ e2, e.Update currentTime codes q2R gaitGenerator ground cos sin v = some e2 ∧
      e2.robot.basePosition 0 = e2.estimatedPose 0 ∧
      e2.robot.basePosition 1 = e2.estimatedPose 1 ∧
      e2.robot.basePosition 2 = e2.estimatedPose 2 ∧
      (e.EstimateRobotHeight codes q2R gaitGenerator ground).map Prod.fst
        = some (e2.estimatedPose 2) ∧
      (e.robot.isSim = true →
        e2.estimatedPose 0 = e.robot.gazeboBasePosition 0 ∧
        e2.estimatedPose 1 = e.robot.gazeboBasePosition 1 ∧
        e2.robot.basePosition 0 = e.robot.gazeboBasePosition 0 ∧
        e2.robot.basePosition 1 = e.robot.gazeboBasePosition 1) := by
  cases hh : e.EstimateRobotHeight codes q2R gaitGenerator ground with
  | none => exact absurd hh (estimateRobotHeight_ne_none e codes q2R gaitGenerator ground)
  | some p =>
    obtain ⟨height, e1⟩ := p
    obtain ⟨_, _, hsim, hgaz⟩ :=
      estimateRobotHeight_frame e codes q2R gaitGenerator ground height e1 hh
    by_cases hs : e.robot.isSim = true
    · have hs1 : e1.robot.isSim = true := by rw [hsim]; exact hs
      simp [Quadruped.RobotPoseEstimator.Update, hh,
        Quadruped.RobotPoseEstimator.ComputePose, hs1, Function.update, hgaz]
    · have hs1 : e1.robot.isSim = false := by
        rw [hsim]; simpa using hs
      simp [Quadruped.RobotPoseEstimator.Update, hh,
        Quadruped.RobotPoseEstimator.ComputePose, hs1, Function.update, hs]

/-- Witness of C21: the sample estimator in simulation, with a moving velocity estimate, is
updated to an estimator whose base position x and y are the simulator's. -/
theorem poseEstimator_update_base_position_agrees_witness :
    ∃ e2, Quadruped.simEstimator.Update 7 Quadruped.sampleCodes (fun _ => 1)
        Quadruped.sampleGait 1 (fun _ => 1) (fun _ => 0) Quadruped.movingVelocity = some e2 ∧
      e2.robot.basePosition 0 = Quadruped.simEstimator.robot.gazeboBasePosition 0 ∧
      e2.robot.basePosition 1 = Quadruped.simEstimator.robot.gazeboBasePosition 1 :=
  match poseEstimator_update_base_position_agrees Quadruped.simEstimator 7
      Quadruped.sampleCodes (fun _ => 1) Quadruped.sampleGait 1 (fun _ => 1) (fun _ => 0)
      Quadruped.movingVelocity with
  | ⟨e2, h, _, _, _, _, hsim⟩ => ⟨e2, h, (hsim rfl).2.2.1, (hsim rfl).2.2.2⟩
